import Mathlib

set_option maxHeartbeats 1000000

attribute [local semireducible] Rat.add Rat.mul Rat.inv Rat.sub Rat.ofScientific

/-!
Verification development for the JHR hotel-KPI extraction engine.

The embedding models the extraction core of src/fixed_yaml_generator.py and
src/create_comprehensive_yaml.py: the three era extractors
(extract_individual_hotels_aggregated, extract_aggregated_data,
extract_legacy_format), the sheet-selection blocks of the two
process_excel_file functions, the two calculate_annual_summary functions, and
the post-extraction validity gate.  Numeric cell values are modelled exactly
as rationals; Python round() is exact round-half-to-even and int() is
truncation toward zero.
-/

/-- A raw scalar cell value as the grid delivers it: a Python int, a Python
float (modelled exactly as a rational), or a string. -/
inductive CellVal where
  | numI (n : ℤ)
  | numF (q : ℚ)
  | text (s : String)
deriving DecidableEq

/-- A grid cell; Option.none models a missing value (NaN), for which
pd.notna is false. -/
abbrev Cell := Option CellVal

/-- One row of the 2-D grid (one df.iloc[row_idx] Series). -/
abbrev Row := List Cell

/-- Substring containment: models the Python expression pat in hay for
strings (first argument the haystack, second the pattern). -/
def strContains (hay pat : String) : Bool :=
  (List.range (hay.data.length + 1)).any (fun i => pat.data.isPrefixOf (hay.data.drop i))

/-- Suffix test: models the Python expression s.endswith(suf). -/
def strEndsWith (s suf : String) : Bool :=
  suf.data.isSuffixOf s.data

/-- Models the Python expression str(row.iloc[k]) if pd.notna(row.iloc[k])
else "" used for the label and year columns.  Python renders a float with
digits, sign, dot and exponent characters only; the rational rendering used
here likewise contains no letters or CJK characters, so every keyword and
year substring test in the source behaves identically on it. -/
def cellStr : Cell → String
  | Option.none => ""
  | some (.numI n) => toString n
  | some (.numF q) => toString q
  | some (.text s) => s

/-- Models the guard pd.notna(value) and str(value) not in skip applied to
data cells.  For a Python int, str gives the plain decimal numeral; for a
Python float, str always carries a fractional part or exponent and therefore
never equals "0", "-" or "". -/
def passesGuard (skip : List String) : Cell → Bool
  | Option.none => false
  | some (.numI n) => decide (toString n ∉ skip)
  | some (.numF _) => true
  | some (.text s) => decide (s ∉ skip)

/-- Numeric value of a digit list (most significant first). -/
def digitsVal (cs : List Char) : ℕ :=
  cs.foldl (fun a c => a * 10 + (c.toNat - 48)) 0

/-- Parse an unsigned decimal literal, digits with an optional dot. -/
def parseFloatCore (cs : List Char) : Option ℚ :=
  let ip := cs.takeWhile Char.isDigit
  match cs.dropWhile Char.isDigit with
  | [] => if ip.isEmpty then Option.none else some ((digitsVal ip : ℚ))
  | c :: fp =>
    if c = '.' ∧ fp.all Char.isDigit ∧ (ip ≠ [] ∨ fp ≠ []) then
      some ((digitsVal ip : ℚ) + (digitsVal fp : ℚ) / ((10 : ℚ) ^ fp.length))
    else Option.none

/-- Models Python float(s) on the plain decimal literals the sheets carry;
any other string raises ValueError, modelled as Option.none (the source
catches the exception and skips the cell). -/
def parseFloat (s : String) : Option ℚ :=
  match s.data with
  | '-' :: rest => (parseFloatCore rest).map (fun q => -q)
  | _ => parseFloatCore s.data

/-- Models Python float(value): already-numeric cells convert exactly,
strings go through the literal parser. -/
def pyFloatQ : CellVal → Option ℚ
  | .numI n => some ((n : ℚ))
  | .numF q => some q
  | .text s => parseFloat s

/-- Python int() on a numeric value: truncation toward zero. -/
def pyInt (q : ℚ) : ℤ :=
  if 0 ≤ q then ⌊q⌋ else ⌈q⌉

/-- Round half to even to an integer: the rounding Python round() performs,
taken exactly on our rational cell values. -/
def halfEven (q : ℚ) : ℤ :=
  if q - ⌊q⌋ < 1/2 then ⌊q⌋
  else if 1/2 < q - ⌊q⌋ then ⌊q⌋ + 1
  else if ⌊q⌋ % 2 = 0 then ⌊q⌋ else ⌊q⌋ + 1

/-- Python round(x, 1). -/
def pyRound1 (q : ℚ) : ℚ :=
  ((halfEven (10 * q) : ℤ) : ℚ) / 10

/-- Python round(x) with no digits argument. -/
def pyRound0 (q : ℚ) : ℤ :=
  halfEven q

/-- A Python dict with string keys and numeric-or-None values, kept in
insertion order as Python dicts are. -/
abbrev PyDict := List (String × Option ℚ)

/-- Dict read: models d.get(k) (and d[k] at the call sites where the source
only reads keys it has previously initialised). -/
def dget : PyDict → String → Option ℚ
  | [], _ => Option.none
  | p :: ps, k => if p.1 = k then p.2 else dget ps k

/-- Dict write d[k] = v: replaces the value at an existing key in place,
appends at the end for a new key, exactly as a Python dict does. -/
def dset : PyDict → String → Option ℚ → PyDict
  | [], k, v => [(k, v)]
  | p :: ps, k, v => if p.1 = k then (k, v) :: ps else p :: dset ps k v

theorem dget_dset_self (d : PyDict) (k : String) (v : Option ℚ) :
    dget (dset d k v) k = v := by
  induction d with
  | nil => simp [dset, dget]
  | cons p ps ih =>
    by_cases h : p.1 = k
    · simp [dset, dget, h]
    · simp [dset, dget, h, ih]

theorem dget_dset_ne (d : PyDict) (k k' : String) (v : Option ℚ) (h : k ≠ k') :
    dget (dset d k v) k' = dget d k' := by
  induction d with
  | nil => simp [dset, dget, h]
  | cons p ps ih =>
    by_cases hp : p.1 = k
    · simp [dset, dget, hp, h]
    · by_cases hp' : p.1 = k'
      · simp [dset, dget, hp, hp', Ne.symm h]
      · simp [dset, dget, hp, hp', ih]

theorem keys_dset_of_mem (d : PyDict) (k : String) (v : Option ℚ)
    (h : k ∈ d.map Prod.fst) : (dset d k v).map Prod.fst = d.map Prod.fst := by
  induction d with
  | nil => simp at h
  | cons p ps ih =>
    by_cases hp : p.1 = k
    · simp [dset, hp]
    · simp only [List.map_cons, List.mem_cons] at h
      rcases h with h | h
      · exact absurd h.symm hp
      · simp [dset, hp, ih h]

/-- Month key as the source formats it (two digits, zero padded). -/
def fmt2 (n : ℕ) : String :=
  if n < 10 then "0" ++ toString n else toString n

/-- Raising cell access row.iloc[k]: an out-of-range index raises an
IndexError that nothing in the extractor catches. -/
def ilocE (row : Row) (k : ℕ) : Except String Cell :=
  match row[k]? with
  | some c => Except.ok c
  | Option.none => Except.error "IndexError"

/-- Row scan in the presence of raisable access: the fold stops at the first
uncaught exception, as the Python for-loop does. -/
def scanRows (step : σ → Row → Except String σ) : List Row → σ → Except String σ
  | [], s => Except.ok s
  | r :: rs, s =>
    match step s r with
    | Except.ok s2 => scanRows step rs s2
    | Except.error e => Except.error e

/-- KPI label classification shared verbatim by
extract_individual_hotels_aggregated (lines 52-59) and
extract_aggregated_data (lines 167-174) of fixed_yaml_generator.py. -/
def classifyKpiStrict (s : String) : Option String :=
  if strContains s "客室稼働率" then some "occupancy_pct"
  else if strContains s "ADR" ∧ strContains s "円" then some "adr_jpy"
  else if strContains s "RevPAR" ∧ strContains s "円" then some "revpar_jpy"
  else if strContains s "売上高" ∧ strContains s "百万円" then some "sales_total_mil_jpy"
  else Option.none

/-- KPI label classification of extract_legacy_format (lines 240-247). -/
def classifyKpiLegacy (s : String) : Option String :=
  if strContains s "客室稼働率" ∨ strContains s "稼働率" then some "occupancy_pct"
  else if strContains s "ADR" then some "adr_jpy"
  else if strContains s "RevPAR" then some "revpar_jpy"
  else if strContains s "売上" then some "sales_total_mil_jpy"
  else Option.none

/-- Reads the monthly data cell at column i+2 and converts it, returning a
number exactly when the source reaches the body of its try block with a
successful float() cast: the column index is bounds checked, the cell must
be non-NaN, must pass the placeholder string test, and must convert. -/
def monthCell (skip : List String) (row : Row) (col : ℕ) : Option ℚ :=
  match row[col]? with
  | Option.none => Option.none
  | some c => if passesGuard skip c then (c.getD (.text "")) |> pyFloatQ else Option.none

/-- Per-month accumulation state of extract_individual_hotels_aggregated:
the running sums and contribution counts initialised at lines 27-36. -/
structure IndivMonth where
  occ : ℚ
  adr : ℚ
  revpar : ℚ
  sales : ℚ
  occN : ℕ
  adrN : ℕ
  revparN : ℕ
  salesN : ℕ
deriving DecidableEq

/-- The all-zero initial accumulator of one month (lines 27-36). -/
def initIM : IndivMonth :=
  ⟨0, 0, 0, 0, 0, 0, 0, 0⟩

/-- One cell contribution of extract_individual_hotels_aggregated
(lines 79-99): range-gated accumulation into the sums and counts. -/
def contribIndiv (m : IndivMonth) (kpi : String) (v : ℚ) : IndivMonth :=
  if kpi = "occupancy_pct" ∧ 0 ≤ v ∧ v ≤ 1 then
    { m with occ := m.occ + v * 100, occN := m.occN + 1 }
  else if (kpi = "adr_jpy" ∨ kpi = "revpar_jpy") ∧ 1000 ≤ v ∧ v ≤ 100000 then
    (if kpi = "adr_jpy" then { m with adr := m.adr + v, adrN := m.adrN + 1 }
     else { m with revpar := m.revpar + v, revparN := m.revparN + 1 })
  else if kpi = "sales_total_mil_jpy" ∧ 0 < v then
    { m with sales := m.sales + v, salesN := m.salesN + 1 }
  else m

/-- The twelve-iteration monthly loop of
extract_individual_hotels_aggregated (lines 74-99). -/
def indivMonthsUpdate (months : List IndivMonth) (kpi : String) (row : Row) : List IndivMonth :=
  (List.range 12).foldl
    (fun ms i =>
      match monthCell ["0", "-", ""] row (i + 2) with
      | some v => ms.set i (contribIndiv (ms.getD i initIM) kpi v)
      | Option.none => ms)
    months

/-- Scan state of extract_individual_hotels_aggregated: the hotel counter,
the persisted KPI classification and the twelve month accumulators. -/
structure IndivState where
  hotels : ℕ
  kpi : Option String
  months : List IndivMonth
deriving DecidableEq

def initIndivState : IndivState :=
  ⟨0, Option.none, List.replicate 12 initIM⟩

/-- Label classification with persistence (lines 51-60): a newly classified
label wins, otherwise the current classification is kept. -/
def kpiAfter (cur : Option String) (first : String) : Option String :=
  match classifyKpiStrict first with
  | some k => some k
  | Option.none => cur

/-- One row of the scan of extract_individual_hotels_aggregated
(lines 41-99): property-marker reset, label classification with
persistence, year gate on the second column, then the monthly loop. -/
def indivRowStep (year : ℤ) (st : IndivState) (row : Row) : Except String IndivState :=
  match ilocE row 0 with
  | Except.error e => Except.error e
  | Except.ok c0 =>
    if strContains (cellStr c0) "物件番号" then
      Except.ok { st with hotels := st.hotels + 1, kpi := Option.none }
    else
      match kpiAfter st.kpi (cellStr c0) with
      | Option.none => Except.ok st
      | some k =>
        match ilocE row 1 with
        | Except.error e => Except.error e
        | Except.ok c1 =>
          if strContains (cellStr c1) (toString year ++ "年") then
            Except.ok { st with kpi := some k, months := indivMonthsUpdate st.months k row }
          else
            Except.ok { st with kpi := some k }

/-- Finalisation of one month (lines 102-138): average or total when the
count is positive, None otherwise, and the count keys are deleted, leaving
exactly the four metric keys in their insertion order. -/
def finalizeIM (m : IndivMonth) : PyDict :=
  [("occupancy_pct", if 0 < m.occN then some (pyRound1 (m.occ / (m.occN : ℚ))) else Option.none),
   ("adr_jpy", if 0 < m.adrN then some ((pyInt (m.adr / (m.adrN : ℚ)) : ℤ) : ℚ) else Option.none),
   ("revpar_jpy", if 0 < m.revparN then some ((pyInt (m.revpar / (m.revparN : ℚ)) : ℤ) : ℚ) else Option.none),
   ("sales_total_mil_jpy", if 0 < m.salesN then some ((pyInt m.sales : ℤ) : ℚ) else Option.none)]

/-- The monthly_data mapping produced for one year: the month keys are fixed
at initialisation, the per-month dictionaries are the scanned values. -/
abbrev MonthlyData := List (String × PyDict)

/-- extract_individual_hotels_aggregated of fixed_yaml_generator.py. -/
def extract_individual_hotels_aggregated (g : List Row) (year : ℤ) : Except String MonthlyData :=
  (scanRows (indivRowStep year) g initIndivState).map
    (fun st => (List.range 12).map (fun i => (fmt2 (i + 1), finalizeIM (st.months.getD i initIM))))

/-- The seven-key initial monthly record of extract_aggregated_data
(lines 148-157) and extract_legacy_format (lines 218-227): all values None. -/
def initRec7 : PyDict :=
  [("occupancy_pct", Option.none), ("adr_jpy", Option.none), ("revpar_jpy", Option.none),
   ("sales_total_mil_jpy", Option.none), ("sales_lodging_mil_jpy", Option.none),
   ("sales_fnb_mil_jpy", Option.none), ("sales_other_mil_jpy", Option.none)]

/-- The numeric_value after the occupancy fraction-to-percent conversion of
extract_aggregated_data (lines 196-198). -/
def aggOccVal (kpi : String) (v0 : ℚ) : ℚ :=
  if kpi = "occupancy_pct" ∧ v0 ≤ 1 then v0 * 100 else v0

/-- One cell store of extract_aggregated_data (lines 194-206): occupancy
fraction conversion, then the validity-gated direct stores. -/
def aggStoreCell (rec : PyDict) (kpi : String) (v0 : ℚ) : PyDict :=
  if kpi = "occupancy_pct" ∧ 0 ≤ aggOccVal kpi v0 ∧ aggOccVal kpi v0 ≤ 100 then
    dset rec kpi (some (pyRound1 (aggOccVal kpi v0)))
  else if (kpi = "adr_jpy" ∨ kpi = "revpar_jpy") ∧ 1000 ≤ aggOccVal kpi v0 ∧ aggOccVal kpi v0 ≤ 100000 then
    dset rec kpi (some ((pyInt (aggOccVal kpi v0) : ℤ) : ℚ))
  else if strEndsWith kpi "_mil_jpy" ∧ 0 < aggOccVal kpi v0 then
    dset rec kpi (some ((pyInt (aggOccVal kpi v0) : ℤ) : ℚ))
  else rec

/-- The twelve-iteration monthly loop of extract_aggregated_data
(lines 187-209). -/
def aggMonthsUpdate (months : List PyDict) (kpi : String) (row : Row) : List PyDict :=
  (List.range 12).foldl
    (fun ms i =>
      match monthCell ["0", "-", ""] row (i + 2) with
      | some v => ms.set i (aggStoreCell (ms.getD i initRec7) kpi v)
      | Option.none => ms)
    months

/-- One row of the scan of extract_aggregated_data (lines 160-209): label
classification without persistence, year gate, then the monthly loop. -/
def aggRowStep (year : ℤ) (months : List PyDict) (row : Row) : Except String (List PyDict) :=
  match ilocE row 0 with
  | Except.error e => Except.error e
  | Except.ok c0 =>
    match classifyKpiStrict (cellStr c0) with
    | Option.none => Except.ok months
    | some kpi =>
      match ilocE row 1 with
      | Except.error e => Except.error e
      | Except.ok c1 =>
        if strContains (cellStr c1) (toString year ++ "年") then
          Except.ok (aggMonthsUpdate months kpi row)
        else
          Except.ok months

/-- extract_aggregated_data of fixed_yaml_generator.py. -/
def extract_aggregated_data (g : List Row) (year : ℤ) : Except String MonthlyData :=
  (scanRows (aggRowStep year) g (List.replicate 12 initRec7)).map
    (fun ms => (List.range 12).map (fun i => (fmt2 (i + 1), ms.getD i initRec7)))

/-- Year match of extract_legacy_format (lines 229-258): the literal year
pattern and, from 1989 on, the Heisei pattern; empty patterns are skipped. -/
def legacyYearMatch (year : ℤ) (second : String) : Bool :=
  [toString year ++ "年",
   if 1989 ≤ year then "平成" ++ toString (year - 1988) ++ "年" else ""].any
    (fun p => p ≠ "" ∧ strContains second p)

/-- One cell store of extract_legacy_format (lines 272-284): the
percent-or-fraction occupancy disambiguation, then unfiltered integer casts
for the remaining metrics. -/
def legacyStoreCell (rec : PyDict) (kpi : String) (v : ℚ) : PyDict :=
  if kpi = "occupancy_pct" then
    (if 1 < v then dset rec kpi (some (pyRound1 v))
     else dset rec kpi (some (pyRound1 (v * 100))))
  else if kpi = "adr_jpy" ∨ kpi = "revpar_jpy" then
    dset rec kpi (some ((pyInt v : ℤ) : ℚ))
  else if strEndsWith kpi "_mil_jpy" then
    dset rec kpi (some ((pyInt v : ℤ) : ℚ))
  else rec

/-- The twelve-iteration monthly loop of extract_legacy_format
(lines 266-287); the placeholder list here is only "0" and "-". -/
def legacyMonthsUpdate (months : List PyDict) (kpi : String) (row : Row) : List PyDict :=
  (List.range 12).foldl
    (fun ms i =>
      match monthCell ["0", "-"] row (i + 2) with
      | some v => ms.set i (legacyStoreCell (ms.getD i initRec7) kpi v)
      | Option.none => ms)
    months

/-- One row of the scan of extract_legacy_format (lines 233-287). -/
def legacyRowStep (year : ℤ) (months : List PyDict) (row : Row) : Except String (List PyDict) :=
  match ilocE row 0 with
  | Except.error e => Except.error e
  | Except.ok c0 =>
    match classifyKpiLegacy (cellStr c0) with
    | Option.none => Except.ok months
    | some kpi =>
      match ilocE row 1 with
      | Except.error e => Except.error e
      | Except.ok c1 =>
        if legacyYearMatch year (cellStr c1) then
          Except.ok (legacyMonthsUpdate months kpi row)
        else
          Except.ok months

/-- extract_legacy_format of fixed_yaml_generator.py. -/
def extract_legacy_format (g : List Row) (year : ℤ) : Except String MonthlyData :=
  (scanRows (legacyRowStep year) g (List.replicate 12 initRec7)).map
    (fun ms => (List.range 12).map (fun i => (fmt2 (i + 1), ms.getD i initRec7)))

/-- The sheet-selection block of process_excel_file in
fixed_yaml_generator.py (lines 304-333): one era-specific keyword search,
returning None when the keyword matches no sheet name (no fallback). -/
def selectMainSheetFixed (sheets : List String) (year : ℤ) : Option String :=
  if 2024 ≤ year then sheets.find? (fun s => strContains s "変動賃料等導入28ホテル")
  else if year = 2019 then sheets.find? (fun s => strContains s "変動賃料等導入")
  else if 2020 ≤ year ∧ year ≤ 2023 then sheets.find? (fun s => strContains s "HMJ")
  else sheets.find? (fun s => strContains s "HMJ")

/-- The era keyword that selectMainSheetFixed searches for a given year. -/
def eraKeywordFixed (year : ℤ) : String :=
  if 2024 ≤ year then "変動賃料等導入28ホテル"
  else if year = 2019 then "変動賃料等導入"
  else "HMJ"

/-- The fixed priority keyword list of process_excel_file in
create_comprehensive_yaml.py (line 123). -/
def priorityKeywords : List String :=
  ["変動賃料等導入", "HMJ", "ACCOR"]

/-- The sheet-selection block of process_excel_file in
create_comprehensive_yaml.py (lines 122-138): the year-independent priority
cascade, then the first sheet without the disclaimer marker. -/
def selectMainSheetComp (sheets : List String) : Option String :=
  match priorityKeywords.findSome? (fun kw => sheets.find? (fun s => strContains s kw)) with
  | some s => some s
  | Option.none => sheets.find? (fun s => ! strContains s "注意")

/-- calculate_annual_summary of fixed_yaml_generator.py (lines 377-397),
taking the list monthly_data.values().  The liveness filter keeps months
whose occupancy is not None; the per-metric comprehensions then keep only
truthy values (so a stored 0 or 0.0 is dropped as Python falsy); the means
use round for occupancy and the truncating int() for ADR and RevPAR. -/
def calculate_annual_summary_fixed (vals : List PyDict) : PyDict :=
  let valid := vals.filter (fun d => (dget d "occupancy_pct").isSome)
  if valid = [] then
    [("occupancy_avg_pct", Option.none), ("adr_avg_jpy", Option.none),
     ("revpar_avg_jpy", Option.none), ("sales_total_annual_mil_jpy", Option.none)]
  else
    let occs := valid.filterMap (fun d => (dget d "occupancy_pct").bind
      (fun q => if q = 0 then Option.none else some q))
    let adrs := valid.filterMap (fun d => (dget d "adr_jpy").bind
      (fun q => if q = 0 then Option.none else some q))
    let revpars := valid.filterMap (fun d => (dget d "revpar_jpy").bind
      (fun q => if q = 0 then Option.none else some q))
    let sales := valid.filterMap (fun d => (dget d "sales_total_mil_jpy").bind
      (fun q => if q = 0 then Option.none else some q))
    [("occupancy_avg_pct",
        if occs = [] then Option.none else some (pyRound1 (occs.sum / (occs.length : ℚ)))),
     ("adr_avg_jpy",
        if adrs = [] then Option.none else some ((pyInt (adrs.sum / (adrs.length : ℚ)) : ℤ) : ℚ)),
     ("revpar_avg_jpy",
        if revpars = [] then Option.none
        else some ((pyInt (revpars.sum / (revpars.length : ℚ)) : ℤ) : ℚ)),
     ("sales_total_annual_mil_jpy",
        if sales = [] then Option.none else some sales.sum)]

/-- calculate_annual_summary of create_comprehensive_yaml.py
(lines 155-177): the same occupancy liveness gate, but the per-metric
comprehensions filter on is-not-None, and ADR and RevPAR use round(). -/
def calculate_annual_summary_comprehensive (vals : List PyDict) : PyDict :=
  let valid := vals.filter (fun d => (dget d "occupancy_pct").isSome)
  if valid = [] then
    [("occupancy_avg_pct", Option.none), ("adr_avg_jpy", Option.none),
     ("revpar_avg_jpy", Option.none), ("sales_total_annual_mil_jpy", Option.none)]
  else
    let occs := valid.filterMap (fun d => dget d "occupancy_pct")
    let adrs := valid.filterMap (fun d => dget d "adr_jpy")
    let revpars := valid.filterMap (fun d => dget d "revpar_jpy")
    let sales := valid.filterMap (fun d => dget d "sales_total_mil_jpy")
    [("occupancy_avg_pct",
        if occs = [] then Option.none else some (pyRound1 (occs.sum / (occs.length : ℚ)))),
     ("adr_avg_jpy",
        if adrs = [] then Option.none
        else some ((pyRound0 (adrs.sum / (adrs.length : ℚ)) : ℤ) : ℚ)),
     ("revpar_avg_jpy",
        if revpars = [] then Option.none
        else some ((pyRound0 (revpars.sum / (revpars.length : ℚ)) : ℤ) : ℚ)),
     ("sales_total_annual_mil_jpy",
        if sales = [] then Option.none else some sales.sum)]

/-- Number of months whose occupancy value is not None: the valid_months
count of process_excel_file (lines 352-353). -/
def validMonths (md : MonthlyData) : ℕ :=
  (md.filter (fun p => (dget p.2 "occupancy_pct").isSome)).length

/-- The per-year result record assembled by process_excel_file
(lines 363-371), restricted to the model-relevant fields. -/
structure YearResult where
  year : ℤ
  monthly_data : MonthlyData
  annual_summary : PyDict
  valid_months : ℕ
deriving DecidableEq

/-- The tail of process_excel_file in fixed_yaml_generator.py
(lines 351-371) after a sheet was selected and extracted without exception:
the zero-signal gate on the occupancy-valid month count, then the annual
summary and the year result. -/
def processAfterExtract (year : ℤ) (md : MonthlyData) : Option YearResult :=
  let v := validMonths md
  if v = 0 then Option.none
  else some ⟨year, md, calculate_annual_summary_fixed (md.map Prod.snd), v⟩

/-- The per-year collection loop of generate_yaml (lines 403-413): years
whose processing returned None are skipped, the rest are kept in order. -/
def collectYears (results : List (ℤ × Option YearResult)) : List (ℤ × YearResult) :=
  results.filterMap (fun p => (p.2).map (fun r => (p.1, r)))

/-- Outer month lookup in a monthly_data mapping. -/
def recOf : MonthlyData → String → PyDict
  | [], _ => []
  | p :: ps, k => if p.1 = k then p.2 else recOf ps k

/-- Value of one metric of one month of an extraction result (None both for
a missing value and for a failed extraction). -/
def mdValue (e : Except String MonthlyData) (mk k : String) : Option ℚ :=
  match e with
  | Except.ok md => dget (recOf md mk) k
  | Except.error _ => Option.none

/-- Key list of one month's record of an extraction result. -/
def mdKeysAt (e : Except String MonthlyData) (mk : String) : List String :=
  match e with
  | Except.ok md => (recOf md mk).map Prod.fst
  | Except.error _ => []

theorem halfEven_ge_floor (q : ℚ) : ⌊q⌋ ≤ halfEven q := by
  unfold halfEven
  split_ifs <;> omega

theorem halfEven_le_floor_add_one (q : ℚ) : halfEven q ≤ ⌊q⌋ + 1 := by
  unfold halfEven
  split_ifs <;> omega

theorem halfEven_nonneg {q : ℚ} (h : 0 ≤ q) : 0 ≤ halfEven q := by
  have := halfEven_ge_floor q
  have h0 : (0:ℤ) ≤ ⌊q⌋ := Int.floor_nonneg.2 h
  omega

theorem halfEven_le_of_le {q : ℚ} {B : ℤ} (h : q ≤ (B:ℚ)) : halfEven q ≤ B := by
  have hf : ⌊q⌋ ≤ B := by
    have := Int.floor_le_floor h
    simpa using this
  rcases lt_or_eq_of_le hf with hlt | heq
  · have := halfEven_le_floor_add_one q
    omega
  · unfold halfEven
    have hlt2 : q - (⌊q⌋:ℚ) < 1/2 := by
      rw [heq]
      linarith
    rw [if_pos hlt2, heq]

theorem halfEven_abs_le (q : ℚ) : |q - (halfEven q : ℚ)| ≤ 1/2 := by
  have h1 : (⌊q⌋ : ℚ) ≤ q := Int.floor_le q
  have h2 : q < (⌊q⌋ : ℚ) + 1 := Int.lt_floor_add_one q
  unfold halfEven
  split_ifs with ha hb hc
  · rw [abs_le]
    constructor <;> linarith
  · rw [abs_le]
    push_cast
    constructor <;> linarith
  · have he : q - (⌊q⌋:ℚ) = 1/2 := by linarith
    rw [abs_le]
    constructor <;> linarith
  · have he : q - (⌊q⌋:ℚ) = 1/2 := by linarith
    rw [abs_le]
    push_cast
    constructor <;> linarith

theorem pyRound1_nonneg {q : ℚ} (h : 0 ≤ q) : 0 ≤ pyRound1 q := by
  unfold pyRound1
  have : 0 ≤ halfEven (10 * q) := halfEven_nonneg (by linarith)
  positivity

theorem pyRound1_le {q B : ℚ} (hd : (10 * B).den = 1) (h : q ≤ B) :
    pyRound1 q ≤ B := by
  unfold pyRound1
  have hBnum : ((10 * B).num : ℚ) = 10 * B := by
    have h0 := Rat.num_div_den (10 * B)
    rw [hd] at h0
    simpa using h0
  have h10 : 10 * q ≤ ((10 * B).num : ℚ) := by
    rw [hBnum]
    linarith
  have hhe : halfEven (10 * q) ≤ (10 * B).num := halfEven_le_of_le h10
  have hc : ((halfEven (10 * q) : ℤ) : ℚ) ≤ 10 * B := by
    rw [← hBnum]
    exact_mod_cast hhe
  linarith

theorem pyInt_bounds {q : ℚ} {a b : ℤ} (h0 : 0 ≤ a) (h1 : (a:ℚ) ≤ q) (h2 : q ≤ (b:ℚ)) :
    a ≤ pyInt q ∧ pyInt q ≤ b := by
  have hq : 0 ≤ q := le_trans (by exact_mod_cast h0) h1
  unfold pyInt
  rw [if_pos hq]
  constructor
  · have := Int.le_floor.2 h1
    omega
  · have := Int.floor_le_floor h2
    simpa using this

theorem list_sum_bounds {l : List ℚ} {a b : ℚ} (h : ∀ x ∈ l, a ≤ x ∧ x ≤ b) :
    a * l.length ≤ l.sum ∧ l.sum ≤ b * l.length := by
  induction l with
  | nil => simp
  | cons x xs ih =>
    have hx := h x (by simp)
    have hxs := ih (fun y hy => h y (by simp [hy]))
    simp only [List.sum_cons, List.length_cons]
    push_cast
    constructor <;> nlinarith [hx.1, hx.2, hxs.1, hxs.2]

theorem mean_bounds {l : List ℚ} {a b : ℚ} (hne : l ≠ []) (h : ∀ x ∈ l, a ≤ x ∧ x ≤ b) :
    a ≤ l.sum / l.length ∧ l.sum / l.length ≤ b := by
  have hlen : 0 < (l.length : ℚ) := by
    have : 0 < l.length := List.length_pos.2 hne
    exact_mod_cast this
  have hs := list_sum_bounds h
  constructor
  · rw [le_div_iff₀ hlen]
    linarith [hs.1]
  · rw [div_le_iff₀ hlen]
    linarith [hs.2]

theorem foldl_preserve {σ α : Type _} (P : σ → Prop) (f : σ → α → σ) (l : List α)
    (h : ∀ s a, P s → P (f s a)) (s : σ) (hs : P s) : P (l.foldl f s) := by
  induction l generalizing s with
  | nil => exact hs
  | cons a as ih => exact ih (f s a) (h s a hs)

theorem scanRows_preserve {σ : Type _} (P : σ → Prop) (step : σ → Row → Except String σ)
    (h : ∀ s r s', P s → step s r = Except.ok s' → P s') :
    ∀ (l : List Row) (s s' : σ), P s → scanRows step l s = Except.ok s' → P s' := by
  intro l
  induction l with
  | nil =>
    intro s s' hs hscan
    simp only [scanRows] at hscan
    cases hscan
    exact hs
  | cons r rs ih =>
    intro s s' hs hscan
    simp only [scanRows] at hscan
    cases hstep : step s r with
    | ok s2 =>
      rw [hstep] at hscan
      exact ih s2 s' (h s r s2 hs hstep) hscan
    | error e =>
      rw [hstep] at hscan
      cases hscan

theorem scanRows_total {σ : Type _} (step : σ → Row → Except String σ)
    (l : List Row) (h : ∀ s r, r ∈ l → ∃ s', step s r = Except.ok s') (s : σ) :
    ∃ s', scanRows step l s = Except.ok s' := by
  induction l generalizing s with
  | nil => exact ⟨s, rfl⟩
  | cons r rs ih =>
    obtain ⟨s2, hs2⟩ := h s r (by simp)
    obtain ⟨s', hs'⟩ := ih (fun t r2 hr2 => h t r2 (by simp [hr2])) s2
    exact ⟨s', by simp only [scanRows, hs2, hs']⟩

theorem getD_preserve {α : Type _} (P : α → Prop) (l : List α) (i : ℕ) (d : α)
    (h : ∀ x ∈ l, P x) (hd : P d) : P (l.getD i d) := by
  induction l generalizing i with
  | nil => simpa [List.getD]
  | cons x xs ih =>
    cases i with
    | zero => exact h x (by simp)
    | succ n =>
      simp only [List.getD_cons_succ]
      exact ih n (fun y hy => h y (by simp [hy]))

theorem classifyKpiStrict_mem {s k : String} (h : classifyKpiStrict s = some k) :
    k = "occupancy_pct" ∨ k = "adr_jpy" ∨ k = "revpar_jpy" ∨ k = "sales_total_mil_jpy" := by
  unfold classifyKpiStrict at h
  split_ifs at h <;> simp_all

theorem classifyKpiLegacy_mem {s k : String} (h : classifyKpiLegacy s = some k) :
    k = "occupancy_pct" ∨ k = "adr_jpy" ∨ k = "revpar_jpy" ∨ k = "sales_total_mil_jpy" := by
  unfold classifyKpiLegacy at h
  split_ifs at h <;> simp_all

theorem indivRowStep_months {year : ℤ} {st : IndivState} {row : Row} {st' : IndivState}
    (h : indivRowStep year st row = Except.ok st') :
    st'.months = st.months ∨ ∃ k, st'.months = indivMonthsUpdate st.months k row := by
  cases h0 : ilocE row 0 with
  | error e =>
    simp only [indivRowStep, h0] at h
    cases h
  | ok c0 =>
    by_cases hm : strContains (cellStr c0) "物件番号" = true
    · simp only [indivRowStep, h0, hm, if_true, Except.ok.injEq] at h
      subst h
      left
      rfl
    · cases hk : kpiAfter st.kpi (cellStr c0) with
      | none =>
        simp only [indivRowStep, h0, hm, if_false, Bool.false_eq_true, hk,
          Except.ok.injEq] at h
        subst h
        left
        rfl
      | some k =>
        cases h1 : ilocE row 1 with
        | error e =>
          simp only [indivRowStep, h0, hm, hk, h1] at h
          cases h
        | ok c1 =>
          by_cases hy : strContains (cellStr c1) (toString year ++ "年") = true
          · simp only [indivRowStep, h0, hm, hk, h1, hy, if_true, if_false, Bool.false_eq_true, Except.ok.injEq] at h
            subst h
            right
            exact ⟨k, rfl⟩
          · simp only [indivRowStep, h0, hm, hk, h1, hy, if_false, Bool.false_eq_true,
              Except.ok.injEq] at h
            subst h
            left
            rfl


theorem aggRowStep_months {year : ℤ} {ms : List PyDict} {row : Row} {ms' : List PyDict}
    (h : aggRowStep year ms row = Except.ok ms') :
    ms' = ms ∨ ∃ k, (k = "occupancy_pct" ∨ k = "adr_jpy" ∨ k = "revpar_jpy" ∨
      k = "sales_total_mil_jpy") ∧ ms' = aggMonthsUpdate ms k row := by
  cases h0 : ilocE row 0 with
  | error e =>
    simp only [aggRowStep, h0] at h
    cases h
  | ok c0 =>
    cases hk : classifyKpiStrict (cellStr c0) with
    | none =>
      simp only [aggRowStep, h0, hk, Except.ok.injEq] at h
      subst h
      left
      rfl
    | some k =>
      cases h1 : ilocE row 1 with
      | error e =>
        simp only [aggRowStep, h0, hk, h1] at h
        cases h
      | ok c1 =>
        by_cases hy : strContains (cellStr c1) (toString year ++ "年") = true
        · simp only [aggRowStep, h0, hk, h1, hy, if_true, Except.ok.injEq] at h
          subst h
          right
          exact ⟨k, classifyKpiStrict_mem hk, rfl⟩
        · simp only [aggRowStep, h0, hk, h1, hy, if_false, Bool.false_eq_true,
            Except.ok.injEq] at h
          subst h
          left
          rfl

theorem legacyRowStep_months {year : ℤ} {ms : List PyDict} {row : Row} {ms' : List PyDict}
    (h : legacyRowStep year ms row = Except.ok ms') :
    ms' = ms ∨ ∃ k, (k = "occupancy_pct" ∨ k = "adr_jpy" ∨ k = "revpar_jpy" ∨
      k = "sales_total_mil_jpy") ∧ ms' = legacyMonthsUpdate ms k row := by
  cases h0 : ilocE row 0 with
  | error e =>
    simp only [legacyRowStep, h0] at h
    cases h
  | ok c0 =>
    cases hk : classifyKpiLegacy (cellStr c0) with
    | none =>
      simp only [legacyRowStep, h0, hk, Except.ok.injEq] at h
      subst h
      left
      rfl
    | some k =>
      cases h1 : ilocE row 1 with
      | error e =>
        simp only [legacyRowStep, h0, hk, h1] at h
        cases h
      | ok c1 =>
        by_cases hy : legacyYearMatch year (cellStr c1) = true
        · simp only [legacyRowStep, h0, hk, h1, hy, if_true, Except.ok.injEq] at h
          subst h
          right
          exact ⟨k, classifyKpiLegacy_mem hk, rfl⟩
        · simp only [legacyRowStep, h0, hk, h1, hy, if_false, Bool.false_eq_true,
            Except.ok.injEq] at h
          subst h
          left
          rfl

/-- Range invariant of the per-month accumulators of
extract_individual_hotels_aggregated: every contribution is range gated, so
each running sum lies between its count times the gate bounds. -/
def IMInv (m : IndivMonth) : Prop :=
  0 ≤ m.occ ∧ m.occ ≤ 100 * (m.occN : ℚ) ∧
  1000 * (m.adrN : ℚ) ≤ m.adr ∧ m.adr ≤ 100000 * (m.adrN : ℚ) ∧
  1000 * (m.revparN : ℚ) ≤ m.revpar ∧ m.revpar ≤ 100000 * (m.revparN : ℚ)

theorem IMInv_init : IMInv initIM := by
  simp [IMInv, initIM]

theorem IMInv_contrib (m : IndivMonth) (kpi : String) (v : ℚ) (h : IMInv m) :
    IMInv (contribIndiv m kpi v) := by
  obtain ⟨h1, h2, h3, h4, h5, h6⟩ := h
  unfold contribIndiv
  split_ifs with c1 c2 c3 c4
  · obtain ⟨-, hv0, hv1⟩ := c1
    refine ⟨?_, ?_, h3, h4, h5, h6⟩ <;> dsimp only <;> push_cast <;> nlinarith
  · obtain ⟨-, hv0, hv1⟩ := c2
    refine ⟨h1, h2, ?_, ?_, h5, h6⟩ <;> dsimp only <;> push_cast <;> nlinarith
  · obtain ⟨-, hv0, hv1⟩ := c2
    refine ⟨h1, h2, h3, h4, ?_, ?_⟩ <;> dsimp only <;> push_cast <;> nlinarith
  · exact ⟨h1, h2, h3, h4, h5, h6⟩
  · exact ⟨h1, h2, h3, h4, h5, h6⟩

theorem IMs_update_inv (ms : List IndivMonth) (kpi : String) (row : Row)
    (h : ∀ m ∈ ms, IMInv m) : ∀ m ∈ indivMonthsUpdate ms kpi row, IMInv m := by
  unfold indivMonthsUpdate
  refine foldl_preserve (fun t => ∀ m ∈ t, IMInv m) _ _ ?_ _ h
  intro s i hs
  cases hc : monthCell ["0", "-", ""] row (i + 2) with
  | none => simp only [hc]; exact hs
  | some v =>
    simp only [hc]
    intro x hx
    rcases List.mem_or_eq_of_mem_set hx with hmem | heq
    · exact hs x hmem
    · subst heq
      exact IMInv_contrib _ _ _ (getD_preserve IMInv s i initIM hs IMInv_init)

theorem indivScan_inv {year : ℤ} {g : List Row} {st : IndivState}
    (h : scanRows (indivRowStep year) g initIndivState = Except.ok st) :
    ∀ m ∈ st.months, IMInv m := by
  refine scanRows_preserve (fun t => ∀ m ∈ t.months, IMInv m) _ ?_ g _ st ?_ h
  · intro s r s' hs hstep
    rcases indivRowStep_months hstep with heq | ⟨k, heq⟩
    · rw [heq]; exact hs
    · rw [heq]; exact IMs_update_inv _ _ _ hs
  · intro m hm
    have h12 : m = initIM := by
      simpa [initIndivState] using hm
    rw [h12]; exact IMInv_init

theorem indiv_extract_shape {g : List Row} {year : ℤ} {md : MonthlyData}
    (h : extract_individual_hotels_aggregated g year = Except.ok md) :
    ∀ p ∈ md, ∃ m, IMInv m ∧ p.2 = finalizeIM m := by
  unfold extract_individual_hotels_aggregated at h
  cases hs : scanRows (indivRowStep year) g initIndivState with
  | error e => rw [hs] at h; cases h
  | ok st =>
    rw [hs] at h
    simp only [Except.map, Except.ok.injEq] at h
    subst h
    intro p hp
    rcases List.mem_map.1 hp with ⟨i, hi, rfl⟩
    exact ⟨st.months.getD i initIM,
      getD_preserve IMInv st.months i initIM (indivScan_inv hs) IMInv_init, rfl⟩

theorem finalizeIM_occ {m : IndivMonth} (h : IMInv m) {q : ℚ}
    (hq : dget (finalizeIM m) "occupancy_pct" = some q) : 0 ≤ q ∧ q ≤ 100 := by
  simp [finalizeIM, dget] at hq
  obtain ⟨hn, hv⟩ := hq
  subst hv
  have hlen : 0 < (m.occN : ℚ) := by exact_mod_cast hn
  have hmean1 : 0 ≤ m.occ / (m.occN : ℚ) := div_nonneg h.1 (le_of_lt hlen)
  have hmean2 : m.occ / (m.occN : ℚ) ≤ 100 := by
    rw [div_le_iff₀ hlen]
    linarith [h.2.1]
  exact ⟨pyRound1_nonneg hmean1, pyRound1_le (by decide) hmean2⟩

theorem finalizeIM_money {m : IndivMonth} (h : IMInv m) {k : String} {q : ℚ}
    (hk : k = "adr_jpy" ∨ k = "revpar_jpy")
    (hq : dget (finalizeIM m) k = some q) : 1000 ≤ q ∧ q ≤ 100000 := by
  obtain ⟨h1, h2, h3, h4, h5, h6⟩ := h
  rcases hk with rfl | rfl
  · simp [finalizeIM, dget] at hq
    obtain ⟨hn, hv⟩ := hq
    subst hv
    have hlen : 0 < (m.adrN : ℚ) := by exact_mod_cast hn
    have hmean1 : (1000 : ℚ) ≤ m.adr / (m.adrN : ℚ) := by
      rw [le_div_iff₀ hlen]
      linarith
    have hmean2 : m.adr / (m.adrN : ℚ) ≤ 100000 := by
      rw [div_le_iff₀ hlen]
      linarith
    have hb := pyInt_bounds (a := 1000) (b := 100000) (by norm_num)
      (by push_cast; linarith) (by push_cast; linarith)
    constructor
    · exact_mod_cast hb.1
    · exact_mod_cast hb.2
  · simp [finalizeIM, dget] at hq
    obtain ⟨hn, hv⟩ := hq
    subst hv
    have hlen : 0 < (m.revparN : ℚ) := by exact_mod_cast hn
    have hmean1 : (1000 : ℚ) ≤ m.revpar / (m.revparN : ℚ) := by
      rw [le_div_iff₀ hlen]
      linarith
    have hmean2 : m.revpar / (m.revparN : ℚ) ≤ 100000 := by
      rw [div_le_iff₀ hlen]
      linarith
    have hb := pyInt_bounds (a := 1000) (b := 100000) (by norm_num)
      (by push_cast; linarith) (by push_cast; linarith)
    constructor
    · exact_mod_cast hb.1
    · exact_mod_cast hb.2

/-- Range invariant of the pre-aggregated extractor's records: every stored
occupancy lies in [0,100] and every stored ADR/RevPAR in [1000,100000],
because extract_aggregated_data stores only gate-passing values. -/
def RangeInv (rec : PyDict) : Prop :=
  (∀ q, dget rec "occupancy_pct" = some q → 0 ≤ q ∧ q ≤ 100) ∧
  (∀ q, dget rec "adr_jpy" = some q → 1000 ≤ q ∧ q ≤ 100000) ∧
  (∀ q, dget rec "revpar_jpy" = some q → 1000 ≤ q ∧ q ≤ 100000)

theorem RangeInv_init : RangeInv initRec7 := by
  refine ⟨?_, ?_, ?_⟩ <;> intro q hq <;> simp [initRec7, dget] at hq

theorem RangeInv_aggStore (rec : PyDict) (kpi : String) (v0 : ℚ) (h : RangeInv rec) :
    RangeInv (aggStoreCell rec kpi v0) := by
  obtain ⟨ho, ha, hr⟩ := h
  unfold aggStoreCell
  split_ifs with c1 c2 c3
  · obtain ⟨hk, hv0, hv1⟩ := c1
    subst hk
    refine ⟨?_, ?_, ?_⟩
    · intro q hq
      rw [dget_dset_self] at hq
      cases hq
      exact ⟨pyRound1_nonneg hv0, pyRound1_le (by decide) hv1⟩
    · intro q hq
      rw [dget_dset_ne _ _ _ _ (by decide)] at hq
      exact ha q hq
    · intro q hq
      rw [dget_dset_ne _ _ _ _ (by decide)] at hq
      exact hr q hq
  · obtain ⟨hk, hv0, hv1⟩ := c2
    have hval : ∀ q, some ((pyInt (aggOccVal kpi v0) : ℤ) : ℚ) = some q →
        1000 ≤ q ∧ q ≤ 100000 := by
      intro q hq
      cases hq
      have hb := pyInt_bounds (a := 1000) (b := 100000) (by norm_num)
        (by push_cast; linarith) (by push_cast; linarith)
      constructor
      · exact_mod_cast hb.1
      · exact_mod_cast hb.2
    rcases hk with rfl | rfl
    · refine ⟨?_, ?_, ?_⟩
      · intro q hq
        rw [dget_dset_ne _ _ _ _ (by decide)] at hq
        exact ho q hq
      · intro q hq
        rw [dget_dset_self] at hq
        exact hval q hq
      · intro q hq
        rw [dget_dset_ne _ _ _ _ (by decide)] at hq
        exact hr q hq
    · refine ⟨?_, ?_, ?_⟩
      · intro q hq
        rw [dget_dset_ne _ _ _ _ (by decide)] at hq
        exact ho q hq
      · intro q hq
        rw [dget_dset_ne _ _ _ _ (by decide)] at hq
        exact ha q hq
      · intro q hq
        rw [dget_dset_self] at hq
        exact hval q hq
  · obtain ⟨hk, -⟩ := c3
    have hne1 : kpi ≠ "occupancy_pct" := by
      rintro rfl
      exact absurd hk (by decide)
    have hne2 : kpi ≠ "adr_jpy" := by
      rintro rfl
      exact absurd hk (by decide)
    have hne3 : kpi ≠ "revpar_jpy" := by
      rintro rfl
      exact absurd hk (by decide)
    refine ⟨?_, ?_, ?_⟩
    · intro q hq
      rw [dget_dset_ne _ _ _ _ hne1] at hq
      exact ho q hq
    · intro q hq
      rw [dget_dset_ne _ _ _ _ hne2] at hq
      exact ha q hq
    · intro q hq
      rw [dget_dset_ne _ _ _ _ hne3] at hq
      exact hr q hq
  · exact ⟨ho, ha, hr⟩

theorem aggMs_update_inv (ms : List PyDict) (kpi : String) (row : Row)
    (h : ∀ rec ∈ ms, RangeInv rec) : ∀ rec ∈ aggMonthsUpdate ms kpi row, RangeInv rec := by
  unfold aggMonthsUpdate
  refine foldl_preserve (fun t => ∀ rec ∈ t, RangeInv rec) _ _ ?_ _ h
  intro s i hs
  cases hc : monthCell ["0", "-", ""] row (i + 2) with
  | none => simp only [hc]; exact hs
  | some v =>
    simp only [hc]
    intro x hx
    rcases List.mem_or_eq_of_mem_set hx with hmem | heq
    · exact hs x hmem
    · subst heq
      exact RangeInv_aggStore _ _ _ (getD_preserve RangeInv s i initRec7 hs RangeInv_init)

theorem aggScan_inv {year : ℤ} {g : List Row} {ms : List PyDict}
    (h : scanRows (aggRowStep year) g (List.replicate 12 initRec7) = Except.ok ms) :
    ∀ rec ∈ ms, RangeInv rec := by
  refine scanRows_preserve (fun t => ∀ rec ∈ t, RangeInv rec) _ ?_ g _ ms ?_ h
  · intro s r s' hs hstep
    rcases aggRowStep_months hstep with heq | ⟨k, -, heq⟩
    · rw [heq]; exact hs
    · rw [heq]; exact aggMs_update_inv _ _ _ hs
  · intro rec hrec
    have h12 : rec = initRec7 := by
      simpa using hrec
    rw [h12]; exact RangeInv_init

theorem agg_extract_RangeInv {g : List Row} {year : ℤ} {md : MonthlyData}
    (h : extract_aggregated_data g year = Except.ok md) :
    ∀ p ∈ md, RangeInv p.2 := by
  unfold extract_aggregated_data at h
  cases hs : scanRows (aggRowStep year) g (List.replicate 12 initRec7) with
  | error e => rw [hs] at h; cases h
  | ok ms =>
    rw [hs] at h
    simp only [Except.map, Except.ok.injEq] at h
    subst h
    intro p hp
    rcases List.mem_map.1 hp with ⟨i, hi, rfl⟩
    exact getD_preserve RangeInv ms i initRec7 (aggScan_inv hs) RangeInv_init

/-- The monthly data of an extraction result ([] for a raised exception). -/
def mdOf (e : Except String MonthlyData) : MonthlyData :=
  match e with
  | Except.ok md => md
  | Except.error _ => []

/-- A legacy-era sheet carrying an occupancy row for 2016 whose month-1 cell
is 150: the legacy extractor stores it unfiltered. -/
def gridLegacyOcc : List Row :=
  [[some (.text "稼働率"), some (.text "2016年"), some (.numI 150)]]

/-- A legacy-era sheet carrying an ADR row for 2016 whose month-1 cell is 5:
the legacy extractor stores it unfiltered. -/
def gridLegacyAdr : List Row :=
  [[some (.text "ADR"), some (.text "2016年"), some (.numI 5)]]

/-- A pre-aggregated sheet with one occupancy row for 2024, month-1 cell the
fraction 0.5. -/
def gridAggOcc : List Row :=
  [[some (.text "客室稼働率"), some (.text "2024年"), some (.numF (1/2))]]

/-- A pre-aggregated sheet with one ADR row for 2024, month-1 cell 1500. -/
def gridAggAdr : List Row :=
  [[some (.text "ADR(円)"), some (.text "2024年"), some (.numI 1500)]]

/-- C1 (amended): for the per-property and the pre-aggregated extractors,
every non-null occupancy value of every month of the result lies in [0,100].
(The legacy extractor, excluded here, stores occupancy without any range
filter; see the counterexample.) -/
theorem C1_occupancy_range_nonlegacy (g : List Row) (year : ℤ) (md : MonthlyData)
    (h : extract_individual_hotels_aggregated g year = Except.ok md ∨
         extract_aggregated_data g year = Except.ok md)
    (mk : String) (rec : PyDict) (hmem : (mk, rec) ∈ md)
    (q : ℚ) (hq : dget rec "occupancy_pct" = some q) : 0 ≤ q ∧ q ≤ 100 := by
  rcases h with h | h
  · rcases indiv_extract_shape h (mk, rec) hmem with ⟨m, hm, hrec⟩
    rw [show rec = finalizeIM m from hrec] at hq
    exact finalizeIM_occ hm hq
  · exact (agg_extract_RangeInv h (mk, rec) hmem).1 q hq

/-- Witness for C1 (amended): the pre-aggregated extractor on a one-row 2024
sheet stores occupancy 50, and the theorem places it inside [0,100]. -/
theorem C1_occupancy_range_nonlegacy_witness : 0 ≤ (50:ℚ) ∧ (50:ℚ) ≤ 100 :=
  C1_occupancy_range_nonlegacy gridAggOcc 2024 (mdOf (extract_aggregated_data gridAggOcc 2024))
    (Or.inr rfl) "01" (recOf (mdOf (extract_aggregated_data gridAggOcc 2024)) "01")
    (by decide) 50 (by decide)

/-- Counterexample to C1 as stated: the legacy extractor stores the raw cell
value 150 as a month's occupancy, outside [0,100]. -/
theorem C1_counterexample :
    mdValue (extract_legacy_format gridLegacyOcc 2016) "01" "occupancy_pct" = some 150 ∧
    ¬ ((150:ℚ) ≤ 100) := by decide

/-- C2 (amended): for the per-property and the pre-aggregated extractors,
every non-null ADR or RevPAR value of every month of the result lies in
[1000,100000].  (The legacy extractor, excluded here, stores them without
any range filter; see the counterexample.) -/
theorem C2_adr_revpar_range_nonlegacy (g : List Row) (year : ℤ) (md : MonthlyData)
    (h : extract_individual_hotels_aggregated g year = Except.ok md ∨
         extract_aggregated_data g year = Except.ok md)
    (mk : String) (rec : PyDict) (hmem : (mk, rec) ∈ md)
    (q : ℚ) (hq : dget rec "adr_jpy" = some q ∨ dget rec "revpar_jpy" = some q) :
    1000 ≤ q ∧ q ≤ 100000 := by
  rcases h with h | h
  · rcases indiv_extract_shape h (mk, rec) hmem with ⟨m, hm, hrec⟩
    rw [show rec = finalizeIM m from hrec] at hq
    rcases hq with hq | hq
    · exact finalizeIM_money hm (Or.inl rfl) hq
    · exact finalizeIM_money hm (Or.inr rfl) hq
  · rcases hq with hq | hq
    · exact (agg_extract_RangeInv h (mk, rec) hmem).2.1 q hq
    · exact (agg_extract_RangeInv h (mk, rec) hmem).2.2 q hq

/-- Witness for C2 (amended): the pre-aggregated extractor on a one-row 2024
sheet stores ADR 1500, and the theorem places it inside [1000,100000]. -/
theorem C2_adr_revpar_range_nonlegacy_witness : 1000 ≤ (1500:ℚ) ∧ (1500:ℚ) ≤ 100000 :=
  C2_adr_revpar_range_nonlegacy gridAggAdr 2024 (mdOf (extract_aggregated_data gridAggAdr 2024))
    (Or.inr rfl) "01" (recOf (mdOf (extract_aggregated_data gridAggAdr 2024)) "01")
    (by decide) 1500 (Or.inl (by decide))

/-- Counterexample to C2 as stated: the legacy extractor stores the raw cell
value 5 as a month's ADR, outside [1000,100000]. -/
theorem C2_counterexample :
    mdValue (extract_legacy_format gridLegacyAdr 2016) "01" "adr_jpy" = some 5 ∧
    ¬ ((1000:ℚ) ≤ 5) := by decide

/-- Three per-property blocks, each a property marker row followed by an
occupancy label row for 2022 whose month-1 cell is a fraction: 0.6, 0.7
and 0.8. -/
def c8grid : List Row :=
  [[some (.text "物件番号1"), Option.none, Option.none],
   [some (.text "客室稼働率"), some (.text "2022年"), some (.numF (3/5))],
   [some (.text "物件番号2"), Option.none, Option.none],
   [some (.text "客室稼働率"), some (.text "2022年"), some (.numF (7/10))],
   [some (.text "物件番号3"), Option.none, Option.none],
   [some (.text "客室稼働率"), some (.text "2022年"), some (.numF (4/5))]]

/-- C8 (confirmed): on a per-property grid with exactly three occupancy
contribution cells 0.6, 0.7, 0.8 for month 1 of the target year, the
per-property extractor aggregates month-1 occupancy to (60+70+80)/3 = 70.0,
and every metric with zero contributing rows for a month is None, not 0:
every other entry of the result is None. -/
theorem C8_per_property_aggregation :
    extract_individual_hotels_aggregated c8grid 2022 =
      Except.ok ((List.range 12).map (fun i =>
        (fmt2 (i + 1),
         if i = 0 then
           [("occupancy_pct", some 70), ("adr_jpy", Option.none), ("revpar_jpy", Option.none),
            ("sales_total_mil_jpy", Option.none)]
         else
           [("occupancy_pct", Option.none), ("adr_jpy", Option.none), ("revpar_jpy", Option.none),
            ("sales_total_mil_jpy", Option.none)]))) := by
  rfl

/-- The whole classification update of one scanned row of
extract_individual_hotels_aggregated (lines 46-60): a property-marker row
resets the classification, a labelled row reclassifies, any other row keeps
the current classification. -/
def stepKpi (cur : Option String) (first : String) : Option String :=
  if strContains first "物件番号" then Option.none
  else kpiAfter cur first

/-- C9 (confirmed): per row of the per-property scan, the persisted KPI
classification evolves exactly by stepKpi (classified labels persist across
unlabelled rows, a property-marker row resets to unknown), and a row whose
resulting classification is unknown contributes nothing to the monthly
accumulators. -/
theorem C9_label_persistence (year : ℤ) (st : IndivState) (row : Row)
    (h2 : 2 ≤ row.length) :
    ∃ st', indivRowStep year st row = Except.ok st' ∧
      st'.kpi = stepKpi st.kpi (cellStr (row.getD 0 Option.none)) ∧
      (stepKpi st.kpi (cellStr (row.getD 0 Option.none)) = Option.none →
        st'.months = st.months) := by
  cases hc0 : row[0]? with
  | none =>
    have := List.getElem?_eq_none_iff.1 hc0
    omega
  | some c0 =>
    have h0 : ilocE row 0 = Except.ok c0 := by simp [ilocE, hc0]
    have hgd : row.getD 0 Option.none = c0 := by simp [List.getD, hc0]
    rw [hgd]
    by_cases hm : strContains (cellStr c0) "物件番号" = true
    · refine ⟨{ st with hotels := st.hotels + 1, kpi := Option.none }, ?_, ?_, ?_⟩
      · simp only [indivRowStep, h0, hm, if_true]
      · simp [stepKpi, hm]
      · intro
        rfl
    · cases hk : kpiAfter st.kpi (cellStr c0) with
      | none =>
        have hcur : st.kpi = Option.none := by
          unfold kpiAfter at hk
          cases hcl : classifyKpiStrict (cellStr c0) with
          | none => rw [hcl] at hk; exact hk
          | some k => rw [hcl] at hk; cases hk
        have hk' : kpiAfter Option.none (cellStr c0) = Option.none := by
          rw [hcur] at hk
          exact hk
        refine ⟨st, ?_, ?_, ?_⟩
        · simp only [indivRowStep, h0, hm, if_false, Bool.false_eq_true, hk]
        · simp [stepKpi, hm, hcur, hk']
        · intro
          rfl
      | some k =>
        cases hc1 : row[1]? with
        | none =>
          have := List.getElem?_eq_none_iff.1 hc1
          omega
        | some c1 =>
          have h1 : ilocE row 1 = Except.ok c1 := by simp [ilocE, hc1]
          by_cases hy : strContains (cellStr c1) (toString year ++ "年") = true
          · refine ⟨{ st with kpi := some k, months := indivMonthsUpdate st.months k row },
              ?_, ?_, ?_⟩
            · simp only [indivRowStep, h0, hm, if_false, Bool.false_eq_true, hk, h1, hy,
                if_true]
            · simp [stepKpi, hm, hk]
            · intro habs
              simp [stepKpi, hm, hk] at habs
          · refine ⟨{ st with kpi := some k }, ?_, ?_, ?_⟩
            · simp only [indivRowStep, h0, hm, if_false, Bool.false_eq_true, hk, h1, hy,
                if_false]
            · simp [stepKpi, hm, hk]
            · intro habs
              simp [stepKpi, hm, hk] at habs

/-- Witness for C9 at a concrete state and row: a labelled occupancy row of
width two. -/
theorem C9_label_persistence_witness :
    2 ≤ ([some (.text "客室稼働率"), Option.none] : Row).length ∧
    ∃ st', indivRowStep 2022 initIndivState [some (.text "客室稼働率"), Option.none] =
        Except.ok st' ∧
      st'.kpi = stepKpi initIndivState.kpi
        (cellStr (([some (.text "客室稼働率"), Option.none] : Row).getD 0 Option.none)) ∧
      (stepKpi initIndivState.kpi
          (cellStr (([some (.text "客室稼働率"), Option.none] : Row).getD 0 Option.none)) =
          Option.none →
        st'.months = initIndivState.months) :=
  ⟨by decide, C9_label_persistence 2022 initIndivState _ (by decide)⟩

/-- The seven metric keys of the spec's MonthlyRecord, in the insertion
order used at initialisation. -/
def sevenKeys : List String :=
  ["occupancy_pct", "adr_jpy", "revpar_jpy", "sales_total_mil_jpy",
   "sales_lodging_mil_jpy", "sales_fnb_mil_jpy", "sales_other_mil_jpy"]

/-- The four keys the per-property extractor leaves after deleting the
count keys. -/
def fourKeys : List String :=
  ["occupancy_pct", "adr_jpy", "revpar_jpy", "sales_total_mil_jpy"]

theorem keys_aggStore (rec : PyDict) (kpi : String) (v : ℚ)
    (hk : kpi = "occupancy_pct" ∨ kpi = "adr_jpy" ∨ kpi = "revpar_jpy" ∨
      kpi = "sales_total_mil_jpy")
    (h : rec.map Prod.fst = sevenKeys) : (aggStoreCell rec kpi v).map Prod.fst = sevenKeys := by
  have hmem : kpi ∈ rec.map Prod.fst := by
    rw [h]
    rcases hk with rfl | rfl | rfl | rfl <;> decide
  unfold aggStoreCell
  split_ifs <;> simp [keys_dset_of_mem _ _ _ hmem, h]

theorem keys_legacyStore (rec : PyDict) (kpi : String) (v : ℚ)
    (hk : kpi = "occupancy_pct" ∨ kpi = "adr_jpy" ∨ kpi = "revpar_jpy" ∨
      kpi = "sales_total_mil_jpy")
    (h : rec.map Prod.fst = sevenKeys) :
    (legacyStoreCell rec kpi v).map Prod.fst = sevenKeys := by
  have hmem : kpi ∈ rec.map Prod.fst := by
    rw [h]
    rcases hk with rfl | rfl | rfl | rfl <;> decide
  unfold legacyStoreCell
  split_ifs <;> simp [keys_dset_of_mem _ _ _ hmem, h]

theorem keys_aggMsUpdate (ms : List PyDict) (kpi : String) (row : Row)
    (hk : kpi = "occupancy_pct" ∨ kpi = "adr_jpy" ∨ kpi = "revpar_jpy" ∨
      kpi = "sales_total_mil_jpy")
    (h : ∀ rec ∈ ms, rec.map Prod.fst = sevenKeys) :
    ∀ rec ∈ aggMonthsUpdate ms kpi row, rec.map Prod.fst = sevenKeys := by
  unfold aggMonthsUpdate
  refine foldl_preserve (fun t : List PyDict => ∀ rec ∈ t, rec.map Prod.fst = sevenKeys)
    _ _ ?_ _ h
  intro s i hs
  cases hc : monthCell ["0", "-", ""] row (i + 2) with
  | none => simp only [hc]; exact hs
  | some v =>
    simp only [hc]
    intro x hx
    rcases List.mem_or_eq_of_mem_set hx with hmem | heq
    · exact hs x hmem
    · subst heq
      exact keys_aggStore _ _ _ hk
        (getD_preserve (fun rec => rec.map Prod.fst = sevenKeys) s i initRec7 hs (by decide))

theorem keys_legacyMsUpdate (ms : List PyDict) (kpi : String) (row : Row)
    (hk : kpi = "occupancy_pct" ∨ kpi = "adr_jpy" ∨ kpi = "revpar_jpy" ∨
      kpi = "sales_total_mil_jpy")
    (h : ∀ rec ∈ ms, rec.map Prod.fst = sevenKeys) :
    ∀ rec ∈ legacyMonthsUpdate ms kpi row, rec.map Prod.fst = sevenKeys := by
  unfold legacyMonthsUpdate
  refine foldl_preserve (fun t : List PyDict => ∀ rec ∈ t, rec.map Prod.fst = sevenKeys)
    _ _ ?_ _ h
  intro s i hs
  cases hc : monthCell ["0", "-"] row (i + 2) with
  | none => simp only [hc]; exact hs
  | some v =>
    simp only [hc]
    intro x hx
    rcases List.mem_or_eq_of_mem_set hx with hmem | heq
    · exact hs x hmem
    · subst heq
      exact keys_legacyStore _ _ _ hk
        (getD_preserve (fun rec => rec.map Prod.fst = sevenKeys) s i initRec7 hs (by decide))

theorem agg_extract_keys {g : List Row} {year : ℤ} {md : MonthlyData}
    (h : extract_aggregated_data g year = Except.ok md) :
    ∀ p ∈ md, p.2.map Prod.fst = sevenKeys := by
  unfold extract_aggregated_data at h
  cases hs : scanRows (aggRowStep year) g (List.replicate 12 initRec7) with
  | error e => rw [hs] at h; cases h
  | ok ms =>
    rw [hs] at h
    simp only [Except.map, Except.ok.injEq] at h
    subst h
    have hinv : ∀ rec ∈ ms, rec.map Prod.fst = sevenKeys := by
      refine scanRows_preserve (fun t => ∀ rec ∈ t, rec.map Prod.fst = sevenKeys) _ ?_ g _ ms
        ?_ hs
      · intro s r s' hsv hstep
        rcases aggRowStep_months hstep with heq | ⟨k, hk, heq⟩
        · rw [heq]; exact hsv
        · rw [heq]; exact keys_aggMsUpdate _ _ _ hk hsv
      · intro rec hrec
        have h12 : rec = initRec7 := by simpa using hrec
        rw [h12]
        decide
    intro p hp
    rcases List.mem_map.1 hp with ⟨i, hi, rfl⟩
    exact getD_preserve (fun rec => rec.map Prod.fst = sevenKeys) ms i initRec7 hinv (by decide)

theorem legacy_extract_keys {g : List Row} {year : ℤ} {md : MonthlyData}
    (h : extract_legacy_format g year = Except.ok md) :
    ∀ p ∈ md, p.2.map Prod.fst = sevenKeys := by
  unfold extract_legacy_format at h
  cases hs : scanRows (legacyRowStep year) g (List.replicate 12 initRec7) with
  | error e => rw [hs] at h; cases h
  | ok ms =>
    rw [hs] at h
    simp only [Except.map, Except.ok.injEq] at h
    subst h
    have hinv : ∀ rec ∈ ms, rec.map Prod.fst = sevenKeys := by
      refine scanRows_preserve (fun t => ∀ rec ∈ t, rec.map Prod.fst = sevenKeys) _ ?_ g _ ms
        ?_ hs
      · intro s r s' hsv hstep
        rcases legacyRowStep_months hstep with heq | ⟨k, hk, heq⟩
        · rw [heq]; exact hsv
        · rw [heq]; exact keys_legacyMsUpdate _ _ _ hk hsv
      · intro rec hrec
        have h12 : rec = initRec7 := by simpa using hrec
        rw [h12]
        decide
    intro p hp
    rcases List.mem_map.1 hp with ⟨i, hi, rfl⟩
    exact getD_preserve (fun rec => rec.map Prod.fst = sevenKeys) ms i initRec7 hinv (by decide)

theorem indiv_extract_keys {g : List Row} {year : ℤ} {md : MonthlyData}
    (h : extract_individual_hotels_aggregated g year = Except.ok md) :
    ∀ p ∈ md, p.2.map Prod.fst = fourKeys := by
  intro p hp
  rcases indiv_extract_shape h p hp with ⟨m, -, hrec⟩
  rw [hrec]
  rfl

/-- The twelve month keys "01" .. "12". -/
def monthKeys : List String :=
  (List.range 12).map (fun i => fmt2 (i + 1))

theorem getD_set_ne {α : Type _} (l : List α) (j i : ℕ) (a d : α) (h : j ≠ i) :
    (l.set j a).getD i d = l.getD i d := by
  simp [List.getD_eq_getElem?_getD, List.getElem?_set_ne h]

theorem scanRows_preserve_mem {σ : Type _} (P : σ → Prop) (step : σ → Row → Except String σ)
    (l : List Row) (h : ∀ s r, r ∈ l → ∀ s', P s → step s r = Except.ok s' → P s') :
    ∀ (s s' : σ), P s → scanRows step l s = Except.ok s' → P s' := by
  induction l with
  | nil =>
    intro s s' hs hscan
    simp only [scanRows] at hscan
    cases hscan
    exact hs
  | cons r rs ih =>
    intro s s' hs hscan
    simp only [scanRows] at hscan
    cases hstep : step s r with
    | ok s2 =>
      rw [hstep] at hscan
      exact ih (fun t r2 hr2 => h t r2 (by simp [hr2])) s2 s'
        (h s r (by simp) s2 hs hstep) hscan
    | error e =>
      rw [hstep] at hscan
      cases hscan

theorem monthsFold_stasis {α : Type _} (skip : List String) (row : Row) (F : α → ℚ → α)
    (d0 : α) (ms : List α) (i : ℕ) (hw : row.length ≤ i + 2) :
    ((List.range 12).foldl (fun t j =>
        match monthCell skip row (j + 2) with
        | some v => t.set j (F (t.getD j d0) v)
        | Option.none => t) ms).getD i d0 = ms.getD i d0 := by
  refine foldl_preserve (fun t : List α => t.getD i d0 = ms.getD i d0) _ _ ?_ _ rfl
  intro t j ht
  cases hc : monthCell skip row (j + 2) with
  | none => simpa [hc] using ht
  | some v =>
    simp only [hc]
    by_cases hj : j = i
    · subst hj
      have hnone : row[j + 2]? = Option.none := List.getElem?_eq_none hw
      simp [monthCell, hnone] at hc
    · rw [getD_set_ne _ _ _ _ _ hj]
      exact ht

theorem indivRowStep_total (year : ℤ) (st : IndivState) (row : Row) (h2 : 2 ≤ row.length) :
    ∃ st', indivRowStep year st row = Except.ok st' := by
  cases hc0 : row[0]? with
  | none =>
    have := List.getElem?_eq_none_iff.1 hc0
    omega
  | some c0 =>
    have h0 : ilocE row 0 = Except.ok c0 := by
      unfold ilocE
      rw [hc0]
    by_cases hm : strContains (cellStr c0) "物件番号" = true
    · exact ⟨{ st with hotels := st.hotels + 1, kpi := Option.none },
        by simp only [indivRowStep, h0, hm, if_true]⟩
    · cases hk : kpiAfter st.kpi (cellStr c0) with
      | none =>
        exact ⟨st, by simp only [indivRowStep, h0, hm, if_false, Bool.false_eq_true, hk]⟩
      | some k =>
        cases hc1 : row[1]? with
        | none =>
          have := List.getElem?_eq_none_iff.1 hc1
          omega
        | some c1 =>
          have h1 : ilocE row 1 = Except.ok c1 := by
            unfold ilocE
            rw [hc1]
          by_cases hy : strContains (cellStr c1) (toString year ++ "年") = true
          · exact ⟨{ st with kpi := some k, months := indivMonthsUpdate st.months k row },
              by simp only [indivRowStep, h0, hm, if_false, Bool.false_eq_true, hk,
                h1, hy, if_true]⟩
          · exact ⟨{ st with kpi := some k },
              by simp only [indivRowStep, h0, hm, if_false, Bool.false_eq_true, hk,
                h1, hy, if_false]⟩

theorem aggRowStep_total (year : ℤ) (ms : List PyDict) (row : Row) (h2 : 2 ≤ row.length) :
    ∃ ms', aggRowStep year ms row = Except.ok ms' := by
  cases hc0 : row[0]? with
  | none =>
    have := List.getElem?_eq_none_iff.1 hc0
    omega
  | some c0 =>
    have h0 : ilocE row 0 = Except.ok c0 := by
      unfold ilocE
      rw [hc0]
    cases hk : classifyKpiStrict (cellStr c0) with
    | none => exact ⟨ms, by simp only [aggRowStep, h0, hk]⟩
    | some k =>
      cases hc1 : row[1]? with
      | none =>
        have := List.getElem?_eq_none_iff.1 hc1
        omega
      | some c1 =>
        have h1 : ilocE row 1 = Except.ok c1 := by
          unfold ilocE
          rw [hc1]
        by_cases hy : strContains (cellStr c1) (toString year ++ "年") = true
        · exact ⟨aggMonthsUpdate ms k row,
            by simp only [aggRowStep, h0, hk, h1, hy, if_true]⟩
        · exact ⟨ms, by simp only [aggRowStep, h0, hk, h1, hy, if_false, Bool.false_eq_true]⟩

theorem legacyRowStep_total (year : ℤ) (ms : List PyDict) (row : Row) (h2 : 2 ≤ row.length) :
    ∃ ms', legacyRowStep year ms row = Except.ok ms' := by
  cases hc0 : row[0]? with
  | none =>
    have := List.getElem?_eq_none_iff.1 hc0
    omega
  | some c0 =>
    have h0 : ilocE row 0 = Except.ok c0 := by
      unfold ilocE
      rw [hc0]
    cases hk : classifyKpiLegacy (cellStr c0) with
    | none => exact ⟨ms, by simp only [legacyRowStep, h0, hk]⟩
    | some k =>
      cases hc1 : row[1]? with
      | none =>
        have := List.getElem?_eq_none_iff.1 hc1
        omega
      | some c1 =>
        have h1 : ilocE row 1 = Except.ok c1 := by
          unfold ilocE
          rw [hc1]
        by_cases hy : legacyYearMatch year (cellStr c1) = true
        · exact ⟨legacyMonthsUpdate ms k row,
            by simp only [legacyRowStep, h0, hk, h1, hy, if_true]⟩
        · exact ⟨ms, by simp only [legacyRowStep, h0, hk, h1, hy, if_false, Bool.false_eq_true]⟩

theorem indivScan_stasis {year : ℤ} {g : List Row} {st : IndivState} (i : ℕ)
    (hw : ∀ r ∈ g, r.length ≤ i + 2)
    (h : scanRows (indivRowStep year) g initIndivState = Except.ok st) :
    st.months.getD i initIM = initIM := by
  refine scanRows_preserve_mem (fun t : IndivState => t.months.getD i initIM = initIM) _ g
    ?_ _ _ ?_ h
  · intro s r hr s' hp hstep
    rcases indivRowStep_months hstep with heq | ⟨k, heq⟩
    · rw [heq]; exact hp
    · rw [heq]
      unfold indivMonthsUpdate
      exact (monthsFold_stasis ["0", "-", ""] r (fun m v => contribIndiv m k v) initIM
        s.months i (hw r hr)).trans hp
  · show (List.replicate 12 initIM).getD i initIM = initIM
    exact getD_preserve (fun m => m = initIM) _ i initIM
      (fun x hx => List.eq_of_mem_replicate hx) rfl

theorem aggScan_stasis {year : ℤ} {g : List Row} {ms : List PyDict} (i : ℕ)
    (hw : ∀ r ∈ g, r.length ≤ i + 2)
    (h : scanRows (aggRowStep year) g (List.replicate 12 initRec7) = Except.ok ms) :
    ms.getD i initRec7 = initRec7 := by
  refine scanRows_preserve_mem (fun t : List PyDict => t.getD i initRec7 = initRec7) _ g
    ?_ _ _ ?_ h
  · intro s r hr s' hp hstep
    rcases aggRowStep_months hstep with heq | ⟨k, -, heq⟩
    · rw [heq]; exact hp
    · rw [heq]
      unfold aggMonthsUpdate
      exact (monthsFold_stasis ["0", "-", ""] r (fun rec v => aggStoreCell rec k v) initRec7
        s i (hw r hr)).trans hp
  · exact getD_preserve (fun rec => rec = initRec7) _ i initRec7
      (fun x hx => List.eq_of_mem_replicate hx) rfl

theorem legacyScan_stasis {year : ℤ} {g : List Row} {ms : List PyDict} (i : ℕ)
    (hw : ∀ r ∈ g, r.length ≤ i + 2)
    (h : scanRows (legacyRowStep year) g (List.replicate 12 initRec7) = Except.ok ms) :
    ms.getD i initRec7 = initRec7 := by
  refine scanRows_preserve_mem (fun t : List PyDict => t.getD i initRec7 = initRec7) _ g
    ?_ _ _ ?_ h
  · intro s r hr s' hp hstep
    rcases legacyRowStep_months hstep with heq | ⟨k, -, heq⟩
    · rw [heq]; exact hp
    · rw [heq]
      unfold legacyMonthsUpdate
      exact (monthsFold_stasis ["0", "-"] r (fun rec v => legacyStoreCell rec k v) initRec7
        s i (hw r hr)).trans hp
  · exact getD_preserve (fun rec => rec = initRec7) _ i initRec7
      (fun x hx => List.eq_of_mem_replicate hx) rfl

/-- C10 (confirmed): on any grid all of whose rows have at least two
columns, each of the three era extractors raises nothing and returns a
twelve-month record keyed "01".."12"; monthly columns are bounds checked,
so a month whose column lies at or beyond every row's width keeps its
initial all-null record; and a failed numeric cast never escapes the scan
(the extractors return Except.ok, never Except.error). -/
theorem C10_bounds_checked_safety (g : List Row) (year : ℤ)
    (h2 : ∀ r ∈ g, 2 ≤ r.length) :
    (∃ md, extract_individual_hotels_aggregated g year = Except.ok md ∧
      md.map Prod.fst = monthKeys ∧
      (∀ i, i < 12 → (∀ r ∈ g, r.length ≤ i + 2) →
        md.getD i ("", []) = (fmt2 (i + 1), finalizeIM initIM))) ∧
    (∃ md, extract_aggregated_data g year = Except.ok md ∧
      md.map Prod.fst = monthKeys ∧
      (∀ i, i < 12 → (∀ r ∈ g, r.length ≤ i + 2) →
        md.getD i ("", []) = (fmt2 (i + 1), initRec7))) ∧
    (∃ md, extract_legacy_format g year = Except.ok md ∧
      md.map Prod.fst = monthKeys ∧
      (∀ i, i < 12 → (∀ r ∈ g, r.length ≤ i + 2) →
        md.getD i ("", []) = (fmt2 (i + 1), initRec7))) := by
  refine ⟨?_, ?_, ?_⟩
  · obtain ⟨st, hst⟩ := scanRows_total (indivRowStep year) g
      (fun s r hr => indivRowStep_total year s r (h2 r hr)) initIndivState
    refine ⟨(List.range 12).map (fun i =>
        (fmt2 (i + 1), finalizeIM (st.months.getD i initIM))), ?_, ?_, ?_⟩
    · unfold extract_individual_hotels_aggregated
      rw [hst]
      rfl
    · rw [List.map_map]
      rfl
    · intro i hi hw
      have hgd : ((List.range 12).map (fun i =>
          (fmt2 (i + 1), finalizeIM (st.months.getD i initIM)))).getD i ("", []) =
          (fmt2 (i + 1), finalizeIM (st.months.getD i initIM)) := by
        simp [List.getD_eq_getElem?_getD, List.getElem?_map, List.getElem?_range, hi]
      rw [hgd, indivScan_stasis i hw hst]
  · obtain ⟨ms, hms⟩ := scanRows_total (aggRowStep year) g
      (fun s r hr => aggRowStep_total year s r (h2 r hr)) (List.replicate 12 initRec7)
    refine ⟨(List.range 12).map (fun i => (fmt2 (i + 1), ms.getD i initRec7)), ?_, ?_, ?_⟩
    · unfold extract_aggregated_data
      rw [hms]
      rfl
    · rw [List.map_map]
      rfl
    · intro i hi hw
      have hgd : ((List.range 12).map (fun i =>
          (fmt2 (i + 1), ms.getD i initRec7))).getD i ("", []) =
          (fmt2 (i + 1), ms.getD i initRec7) := by
        simp [List.getD_eq_getElem?_getD, List.getElem?_map, List.getElem?_range, hi]
      rw [hgd, aggScan_stasis i hw hms]
  · obtain ⟨ms, hms⟩ := scanRows_total (legacyRowStep year) g
      (fun s r hr => legacyRowStep_total year s r (h2 r hr)) (List.replicate 12 initRec7)
    refine ⟨(List.range 12).map (fun i => (fmt2 (i + 1), ms.getD i initRec7)), ?_, ?_, ?_⟩
    · unfold extract_legacy_format
      rw [hms]
      rfl
    · rw [List.map_map]
      rfl
    · intro i hi hw
      have hgd : ((List.range 12).map (fun i =>
          (fmt2 (i + 1), ms.getD i initRec7))).getD i ("", []) =
          (fmt2 (i + 1), ms.getD i initRec7) := by
        simp [List.getD_eq_getElem?_getD, List.getElem?_map, List.getElem?_range, hi]
      rw [hgd, legacyScan_stasis i hw hms]

/-- Witness for C10 at a concrete three-column grid. -/
theorem C10_bounds_checked_safety_witness :
    ∃ md, extract_aggregated_data gridAggOcc 2024 = Except.ok md ∧
      md.map Prod.fst = monthKeys ∧
      (∀ i, i < 12 → (∀ r ∈ gridAggOcc, r.length ≤ i + 2) →
        md.getD i ("", []) = (fmt2 (i + 1), initRec7)) :=
  (C10_bounds_checked_safety gridAggOcc 2024 (by decide)).2.1

theorem dget_initRec7 (k : String) : dget initRec7 k = Option.none := by
  unfold initRec7
  simp only [dget]
  split_ifs <;> rfl

theorem dget_aggStore_ne (rec : PyDict) (kpi : String) (v : ℚ) (k : String)
    (hne : kpi ≠ k) : dget (aggStoreCell rec kpi v) k = dget rec k := by
  unfold aggStoreCell
  split_ifs <;> first | rw [dget_dset_ne _ _ _ _ hne] | rfl

theorem dget_legacyStore_ne (rec : PyDict) (kpi : String) (v : ℚ) (k : String)
    (hne : kpi ≠ k) : dget (legacyStoreCell rec kpi v) k = dget rec k := by
  unfold legacyStoreCell
  split_ifs <;> first | rw [dget_dset_ne _ _ _ _ hne] | rfl

theorem aggRowStep_classify {year : ℤ} {ms : List PyDict} {row : Row} {ms' : List PyDict}
    (h : aggRowStep year ms row = Except.ok ms') :
    ms' = ms ∨ ∃ k, classifyKpiStrict (cellStr (row.getD 0 Option.none)) = some k ∧
      ms' = aggMonthsUpdate ms k row := by
  cases h0 : ilocE row 0 with
  | error e =>
    simp only [aggRowStep, h0] at h
    cases h
  | ok c0 =>
    have hgd : row.getD 0 Option.none = c0 := by
      unfold ilocE at h0
      cases hr0 : row[0]? with
      | none => rw [hr0] at h0; cases h0
      | some c =>
        rw [hr0] at h0
        cases h0
        simp [List.getD_eq_getElem?_getD, hr0]
    rw [hgd]
    cases hk : classifyKpiStrict (cellStr c0) with
    | none =>
      simp only [aggRowStep, h0, hk, Except.ok.injEq] at h
      subst h
      left
      rfl
    | some k =>
      cases h1 : ilocE row 1 with
      | error e =>
        simp only [aggRowStep, h0, hk, h1] at h
        cases h
      | ok c1 =>
        by_cases hy : strContains (cellStr c1) (toString year ++ "年") = true
        · simp only [aggRowStep, h0, hk, h1, hy, if_true, Except.ok.injEq] at h
          subst h
          right
          exact ⟨k, rfl, rfl⟩
        · simp only [aggRowStep, h0, hk, h1, hy, if_false, Bool.false_eq_true,
            Except.ok.injEq] at h
          subst h
          left
          rfl

theorem legacyRowStep_classify {year : ℤ} {ms : List PyDict} {row : Row} {ms' : List PyDict}
    (h : legacyRowStep year ms row = Except.ok ms') :
    ms' = ms ∨ ∃ k, classifyKpiLegacy (cellStr (row.getD 0 Option.none)) = some k ∧
      ms' = legacyMonthsUpdate ms k row := by
  cases h0 : ilocE row 0 with
  | error e =>
    simp only [legacyRowStep, h0] at h
    cases h
  | ok c0 =>
    have hgd : row.getD 0 Option.none = c0 := by
      unfold ilocE at h0
      cases hr0 : row[0]? with
      | none => rw [hr0] at h0; cases h0
      | some c =>
        rw [hr0] at h0
        cases h0
        simp [List.getD_eq_getElem?_getD, hr0]
    rw [hgd]
    cases hk : classifyKpiLegacy (cellStr c0) with
    | none =>
      simp only [legacyRowStep, h0, hk, Except.ok.injEq] at h
      subst h
      left
      rfl
    | some k =>
      cases h1 : ilocE row 1 with
      | error e =>
        simp only [legacyRowStep, h0, hk, h1] at h
        cases h
      | ok c1 =>
        by_cases hy : legacyYearMatch year (cellStr c1) = true
        · simp only [legacyRowStep, h0, hk, h1, hy, if_true, Except.ok.injEq] at h
          subst h
          right
          exact ⟨k, rfl, rfl⟩
        · simp only [legacyRowStep, h0, hk, h1, hy, if_false, Bool.false_eq_true,
            Except.ok.injEq] at h
          subst h
          left
          rfl

theorem aggMsUpdate_dget_none (ms : List PyDict) (kpi : String) (row : Row) (k : String)
    (hne : kpi ≠ k) (h : ∀ rec ∈ ms, dget rec k = Option.none) :
    ∀ rec ∈ aggMonthsUpdate ms kpi row, dget rec k = Option.none := by
  unfold aggMonthsUpdate
  refine foldl_preserve (fun t : List PyDict => ∀ rec ∈ t, dget rec k = Option.none)
    _ _ ?_ _ h
  intro s i hs
  cases hc : monthCell ["0", "-", ""] row (i + 2) with
  | none => simp only [hc]; exact hs
  | some v =>
    simp only [hc]
    intro x hx
    rcases List.mem_or_eq_of_mem_set hx with hmem | heq
    · exact hs x hmem
    · subst heq
      rw [dget_aggStore_ne _ _ _ _ hne]
      exact getD_preserve (fun rec => dget rec k = Option.none) s i initRec7 hs
        (dget_initRec7 k)

theorem legacyMsUpdate_dget_none (ms : List PyDict) (kpi : String) (row : Row) (k : String)
    (hne : kpi ≠ k) (h : ∀ rec ∈ ms, dget rec k = Option.none) :
    ∀ rec ∈ legacyMonthsUpdate ms kpi row, dget rec k = Option.none := by
  unfold legacyMonthsUpdate
  refine foldl_preserve (fun t : List PyDict => ∀ rec ∈ t, dget rec k = Option.none)
    _ _ ?_ _ h
  intro s i hs
  cases hc : monthCell ["0", "-"] row (i + 2) with
  | none => simp only [hc]; exact hs
  | some v =>
    simp only [hc]
    intro x hx
    rcases List.mem_or_eq_of_mem_set hx with hmem | heq
    · exact hs x hmem
    · subst heq
      rw [dget_legacyStore_ne _ _ _ _ hne]
      exact getD_preserve (fun rec => dget rec k = Option.none) s i initRec7 hs
        (dget_initRec7 k)

theorem agg_unclassified_none {g : List Row} {year : ℤ} {md : MonthlyData} (k : String)
    (h : extract_aggregated_data g year = Except.ok md)
    (hk : ∀ r ∈ g, classifyKpiStrict (cellStr (r.getD 0 Option.none)) ≠ some k) :
    ∀ p ∈ md, dget p.2 k = Option.none := by
  unfold extract_aggregated_data at h
  cases hs : scanRows (aggRowStep year) g (List.replicate 12 initRec7) with
  | error e => rw [hs] at h; cases h
  | ok ms =>
    rw [hs] at h
    simp only [Except.map, Except.ok.injEq] at h
    subst h
    have hinv : ∀ rec ∈ ms, dget rec k = Option.none := by
      refine scanRows_preserve_mem (fun t : List PyDict => ∀ rec ∈ t, dget rec k =
        Option.none) _ g ?_ _ _ ?_ hs
      · intro s r hr s' hsv hstep
        rcases aggRowStep_classify hstep with heq | ⟨k', hcl, heq⟩
        · rw [heq]; exact hsv
        · rw [heq]
          refine aggMsUpdate_dget_none _ _ _ _ ?_ hsv
          intro hkk
          exact hk r hr (hkk ▸ hcl)
      · intro rec hrec
        have h12 : rec = initRec7 := by simpa using hrec
        rw [h12]
        exact dget_initRec7 k
    intro p hp
    rcases List.mem_map.1 hp with ⟨i, hi, rfl⟩
    exact getD_preserve (fun rec => dget rec k = Option.none) ms i initRec7 hinv
      (dget_initRec7 k)

theorem legacy_unclassified_none {g : List Row} {year : ℤ} {md : MonthlyData} (k : String)
    (h : extract_legacy_format g year = Except.ok md)
    (hk : ∀ r ∈ g, classifyKpiLegacy (cellStr (r.getD 0 Option.none)) ≠ some k) :
    ∀ p ∈ md, dget p.2 k = Option.none := by
  unfold extract_legacy_format at h
  cases hs : scanRows (legacyRowStep year) g (List.replicate 12 initRec7) with
  | error e => rw [hs] at h; cases h
  | ok ms =>
    rw [hs] at h
    simp only [Except.map, Except.ok.injEq] at h
    subst h
    have hinv : ∀ rec ∈ ms, dget rec k = Option.none := by
      refine scanRows_preserve_mem (fun t : List PyDict => ∀ rec ∈ t, dget rec k =
        Option.none) _ g ?_ _ _ ?_ hs
      · intro s r hr s' hsv hstep
        rcases legacyRowStep_classify hstep with heq | ⟨k', hcl, heq⟩
        · rw [heq]; exact hsv
        · rw [heq]
          refine legacyMsUpdate_dget_none _ _ _ _ ?_ hsv
          intro hkk
          exact hk r hr (hkk ▸ hcl)
      · intro rec hrec
        have h12 : rec = initRec7 := by simpa using hrec
        rw [h12]
        exact dget_initRec7 k
    intro p hp
    rcases List.mem_map.1 hp with ⟨i, hi, rfl⟩
    exact getD_preserve (fun rec => dget rec k = Option.none) ms i initRec7 hinv
      (dget_initRec7 k)

theorem finalizeIM_none_iff (m : IndivMonth) :
    (dget (finalizeIM m) "occupancy_pct" = Option.none ↔ m.occN = 0) ∧
    (dget (finalizeIM m) "adr_jpy" = Option.none ↔ m.adrN = 0) ∧
    (dget (finalizeIM m) "revpar_jpy" = Option.none ↔ m.revparN = 0) ∧
    (dget (finalizeIM m) "sales_total_mil_jpy" = Option.none ↔ m.salesN = 0) := by
  refine ⟨?_, ?_, ?_, ?_⟩ <;> simp [finalizeIM, dget]


/-- C7 (confirmed): after a successful sheet read, a year is reported as
failed (None, skipped by the assembler) exactly when zero of the twelve
months carry a non-null occupancy value; otherwise the year result with its
monthly data, annual summary and valid-month count is returned and kept. -/
theorem C7_zero_signal_gate (year : ℤ) (md : MonthlyData) :
    (processAfterExtract year md = Option.none ↔ validMonths md = 0) ∧
    (validMonths md ≠ 0 →
      processAfterExtract year md =
        some ⟨year, md, calculate_annual_summary_fixed (md.map Prod.snd), validMonths md⟩) ∧
    (collectYears [(year, processAfterExtract year md)] = [] ↔ validMonths md = 0) := by
  unfold processAfterExtract collectYears
  by_cases h : validMonths md = 0 <;> simp [h]

/-- Witness for C7 at the empty monthly mapping, which has zero valid
months. -/
theorem C7_zero_signal_gate_witness :
    (processAfterExtract 2020 ([] : MonthlyData) = Option.none ↔
      validMonths ([] : MonthlyData) = 0) ∧
    (validMonths ([] : MonthlyData) ≠ 0 →
      processAfterExtract 2020 ([] : MonthlyData) =
        some ⟨2020, [], calculate_annual_summary_fixed (([] : MonthlyData).map Prod.snd),
          validMonths ([] : MonthlyData)⟩) ∧
    (collectYears [(2020, processAfterExtract 2020 ([] : MonthlyData))] = [] ↔
      validMonths ([] : MonthlyData) = 0) :=
  C7_zero_signal_gate 2020 []

/-- Months passing the occupancy liveness gate of both annualizers. -/
def liveMonths (vals : List PyDict) : List PyDict :=
  vals.filter (fun d => (dget d "occupancy_pct").isSome)

/-- The non-null values of one metric over a list of records. -/
def presentVals (k : String) (ds : List PyDict) : List ℚ :=
  ds.filterMap (fun d => dget d k)

/-- The Python-truthy values of one metric over a list of records: non-null
and nonzero (0 and 0.0 are falsy and get dropped). -/
def truthyVals (k : String) (ds : List PyDict) : List ℚ :=
  ds.filterMap (fun d => (dget d k).bind (fun q => if q = 0 then Option.none else some q))

theorem fixed_field_eq (vals : List PyDict) :
    dget (calculate_annual_summary_fixed vals) "occupancy_avg_pct" =
      (if truthyVals "occupancy_pct" (liveMonths vals) = [] then Option.none
       else some (pyRound1 ((truthyVals "occupancy_pct" (liveMonths vals)).sum /
         ((truthyVals "occupancy_pct" (liveMonths vals)).length : ℚ)))) ∧
    dget (calculate_annual_summary_fixed vals) "adr_avg_jpy" =
      (if truthyVals "adr_jpy" (liveMonths vals) = [] then Option.none
       else some ((pyInt ((truthyVals "adr_jpy" (liveMonths vals)).sum /
         ((truthyVals "adr_jpy" (liveMonths vals)).length : ℚ)) : ℤ) : ℚ)) ∧
    dget (calculate_annual_summary_fixed vals) "revpar_avg_jpy" =
      (if truthyVals "revpar_jpy" (liveMonths vals) = [] then Option.none
       else some ((pyInt ((truthyVals "revpar_jpy" (liveMonths vals)).sum /
         ((truthyVals "revpar_jpy" (liveMonths vals)).length : ℚ)) : ℤ) : ℚ)) ∧
    dget (calculate_annual_summary_fixed vals) "sales_total_annual_mil_jpy" =
      (if truthyVals "sales_total_mil_jpy" (liveMonths vals) = [] then Option.none
       else some ((truthyVals "sales_total_mil_jpy" (liveMonths vals)).sum)) := by
  unfold calculate_annual_summary_fixed liveMonths truthyVals
  by_cases hv : vals.filter (fun d => (dget d "occupancy_pct").isSome) = []
  · simp [hv, dget]
  · simp only [hv, if_false]
    refine ⟨?_, ?_, ?_, ?_⟩ <;> simp [dget]

theorem comp_field_eq (vals : List PyDict) :
    dget (calculate_annual_summary_comprehensive vals) "occupancy_avg_pct" =
      (if presentVals "occupancy_pct" (liveMonths vals) = [] then Option.none
       else some (pyRound1 ((presentVals "occupancy_pct" (liveMonths vals)).sum /
         ((presentVals "occupancy_pct" (liveMonths vals)).length : ℚ)))) ∧
    dget (calculate_annual_summary_comprehensive vals) "adr_avg_jpy" =
      (if presentVals "adr_jpy" (liveMonths vals) = [] then Option.none
       else some ((pyRound0 ((presentVals "adr_jpy" (liveMonths vals)).sum /
         ((presentVals "adr_jpy" (liveMonths vals)).length : ℚ)) : ℤ) : ℚ)) ∧
    dget (calculate_annual_summary_comprehensive vals) "revpar_avg_jpy" =
      (if presentVals "revpar_jpy" (liveMonths vals) = [] then Option.none
       else some ((pyRound0 ((presentVals "revpar_jpy" (liveMonths vals)).sum /
         ((presentVals "revpar_jpy" (liveMonths vals)).length : ℚ)) : ℤ) : ℚ)) ∧
    dget (calculate_annual_summary_comprehensive vals) "sales_total_annual_mil_jpy" =
      (if presentVals "sales_total_mil_jpy" (liveMonths vals) = [] then Option.none
       else some ((presentVals "sales_total_mil_jpy" (liveMonths vals)).sum)) := by
  unfold calculate_annual_summary_comprehensive liveMonths presentVals
  by_cases hv : vals.filter (fun d => (dget d "occupancy_pct").isSome) = []
  · simp [hv, dget]
  · simp only [hv, if_false]
    refine ⟨?_, ?_, ?_, ?_⟩ <;> simp [dget]

/-- C3 (amended): both annualizers aggregate only over months passing the
occupancy liveness gate.  The comprehensive annualizer's occupancy average
is the mean over exactly the months with non-null occupancy and its sales
total sums the months with non-null occupancy and non-null sales; the fixed
annualizer additionally drops zero values (Python truthiness).  An empty
relevant set yields null, never zero, and both functions are total, so no
exception is raised.  In particular a month with non-null sales but null
occupancy is excluded from the sales total (see the counterexample). -/
theorem C3_annual_summary_gating (vals : List PyDict) :
    dget (calculate_annual_summary_fixed vals) "occupancy_avg_pct" =
      (if truthyVals "occupancy_pct" (liveMonths vals) = [] then Option.none
       else some (pyRound1 ((truthyVals "occupancy_pct" (liveMonths vals)).sum /
         ((truthyVals "occupancy_pct" (liveMonths vals)).length : ℚ)))) ∧
    dget (calculate_annual_summary_fixed vals) "sales_total_annual_mil_jpy" =
      (if truthyVals "sales_total_mil_jpy" (liveMonths vals) = [] then Option.none
       else some ((truthyVals "sales_total_mil_jpy" (liveMonths vals)).sum)) ∧
    dget (calculate_annual_summary_comprehensive vals) "occupancy_avg_pct" =
      (if presentVals "occupancy_pct" (liveMonths vals) = [] then Option.none
       else some (pyRound1 ((presentVals "occupancy_pct" (liveMonths vals)).sum /
         ((presentVals "occupancy_pct" (liveMonths vals)).length : ℚ)))) ∧
    dget (calculate_annual_summary_comprehensive vals) "sales_total_annual_mil_jpy" =
      (if presentVals "sales_total_mil_jpy" (liveMonths vals) = [] then Option.none
       else some ((presentVals "sales_total_mil_jpy" (liveMonths vals)).sum)) :=
  ⟨(fixed_field_eq vals).1, (fixed_field_eq vals).2.2.2,
   (comp_field_eq vals).1, (comp_field_eq vals).2.2.2⟩

/-- Twelve records: month 1 has a non-null sales value 5 but a null
occupancy; everything else is null. -/
def c3Vals : List PyDict :=
  [("occupancy_pct", Option.none), ("adr_jpy", Option.none), ("revpar_jpy", Option.none),
   ("sales_total_mil_jpy", some 5), ("sales_lodging_mil_jpy", Option.none),
   ("sales_fnb_mil_jpy", Option.none), ("sales_other_mil_jpy", Option.none)] ::
  List.replicate 11 initRec7

/-- Counterexample to C3 as stated: the set of months with non-null sales
is nonempty (its values are exactly [5]), yet both annualizers return a
null annual sales total, because the month is dropped by the occupancy
liveness gate; the claim demands the sum 5. -/
theorem C3_counterexample :
    presentVals "sales_total_mil_jpy" c3Vals = [(5:ℚ)] ∧
    dget (calculate_annual_summary_fixed c3Vals) "sales_total_annual_mil_jpy" =
      Option.none ∧
    dget (calculate_annual_summary_comprehensive c3Vals) "sales_total_annual_mil_jpy" =
      Option.none := by
  decide

theorem pyInt_trunc_char (q : ℚ) : |q - (pyInt q : ℚ)| < 1 ∧ |(pyInt q : ℚ)| ≤ |q| := by
  unfold pyInt
  by_cases h : 0 ≤ q
  · rw [if_pos h]
    have h1 := Int.floor_le q
    have h2 := Int.lt_floor_add_one q
    have h0 : (0:ℚ) ≤ (⌊q⌋:ℚ) := by exact_mod_cast Int.floor_nonneg.2 h
    constructor
    · rw [abs_lt]
      constructor <;> linarith
    · rw [abs_of_nonneg h0, abs_of_nonneg h]
      exact h1
  · rw [if_neg h]
    push_neg at h
    have h1 := Int.le_ceil q
    have h2 := Int.ceil_lt_add_one q
    have h0 : (⌈q⌉:ℚ) ≤ 0 := by
      have : ⌈q⌉ ≤ (0:ℤ) := Int.ceil_le.2 (by push_cast; linarith)
      exact_mod_cast this
    constructor
    · rw [abs_lt]
      constructor <;> linarith
    · rw [abs_of_nonpos h0, abs_of_nonpos (le_of_lt h)]
      linarith

theorem pyRound1_char (q : ℚ) :
    |q - pyRound1 q| ≤ 1/20 ∧ (10 * pyRound1 q).den = 1 := by
  constructor
  · have h := halfEven_abs_le (10 * q)
    unfold pyRound1
    rw [show q - ((halfEven (10 * q) : ℤ) : ℚ) / 10 =
        (10 * q - ((halfEven (10 * q) : ℤ) : ℚ)) / 10 from by ring, abs_div]
    rw [show |(10:ℚ)| = 10 from by norm_num]
    linarith [h, abs_nonneg (10 * q - ((halfEven (10 * q) : ℤ) : ℚ))]
  · unfold pyRound1
    rw [show (10:ℚ) * (((halfEven (10 * q) : ℤ) : ℚ) / 10) =
        ((halfEven (10 * q) : ℤ) : ℚ) from by ring]
    exact Rat.den_intCast _

/-- Arithmetic mean of a list of rationals. -/
def meanQ (l : List ℚ) : ℚ :=
  l.sum / (l.length : ℚ)

/-- C6 (amended): over its gated month set, each annualizer rounds
occupancy to one decimal (a multiple of 1/10 within 1/20 of the mean) in
both implementations; the comprehensive annualizer rounds ADR/RevPAR to a
nearest integer (within 1/2 of the mean), but the fixed annualizer
truncates them toward zero (an integer within 1 of the mean and of no
larger magnitude), not to the nearest integer. -/
theorem C6_annualizer_rounding (vals : List PyDict) :
    (∀ q, dget (calculate_annual_summary_fixed vals) "occupancy_avg_pct" = some q →
      (10 * q).den = 1 ∧
      |meanQ (truthyVals "occupancy_pct" (liveMonths vals)) - q| ≤ 1/20) ∧
    (∀ q, dget (calculate_annual_summary_fixed vals) "adr_avg_jpy" = some q →
      ∃ z : ℤ, q = (z:ℚ) ∧ |meanQ (truthyVals "adr_jpy" (liveMonths vals)) - q| < 1 ∧
        |q| ≤ |meanQ (truthyVals "adr_jpy" (liveMonths vals))|) ∧
    (∀ q, dget (calculate_annual_summary_fixed vals) "revpar_avg_jpy" = some q →
      ∃ z : ℤ, q = (z:ℚ) ∧ |meanQ (truthyVals "revpar_jpy" (liveMonths vals)) - q| < 1 ∧
        |q| ≤ |meanQ (truthyVals "revpar_jpy" (liveMonths vals))|) ∧
    (∀ q, dget (calculate_annual_summary_comprehensive vals) "occupancy_avg_pct" = some q →
      (10 * q).den = 1 ∧
      |meanQ (presentVals "occupancy_pct" (liveMonths vals)) - q| ≤ 1/20) ∧
    (∀ q, dget (calculate_annual_summary_comprehensive vals) "adr_avg_jpy" = some q →
      ∃ z : ℤ, q = (z:ℚ) ∧ |meanQ (presentVals "adr_jpy" (liveMonths vals)) - q| ≤ 1/2) ∧
    (∀ q, dget (calculate_annual_summary_comprehensive vals) "revpar_avg_jpy" = some q →
      ∃ z : ℤ, q = (z:ℚ) ∧
        |meanQ (presentVals "revpar_jpy" (liveMonths vals)) - q| ≤ 1/2) := by
  refine ⟨?_, ?_, ?_, ?_, ?_, ?_⟩
  · intro q hq
    rw [(fixed_field_eq vals).1] at hq
    by_cases he : truthyVals "occupancy_pct" (liveMonths vals) = []
    · rw [if_pos he] at hq
      cases hq
    · rw [if_neg he] at hq
      cases hq
      have h := pyRound1_char (meanQ (truthyVals "occupancy_pct" (liveMonths vals)))
      exact ⟨h.2, h.1⟩
  · intro q hq
    rw [(fixed_field_eq vals).2.1] at hq
    by_cases he : truthyVals "adr_jpy" (liveMonths vals) = []
    · rw [if_pos he] at hq
      cases hq
    · rw [if_neg he] at hq
      cases hq
      have h := pyInt_trunc_char (meanQ (truthyVals "adr_jpy" (liveMonths vals)))
      exact ⟨_, rfl, h.1, h.2⟩
  · intro q hq
    rw [(fixed_field_eq vals).2.2.1] at hq
    by_cases he : truthyVals "revpar_jpy" (liveMonths vals) = []
    · rw [if_pos he] at hq
      cases hq
    · rw [if_neg he] at hq
      cases hq
      have h := pyInt_trunc_char (meanQ (truthyVals "revpar_jpy" (liveMonths vals)))
      exact ⟨_, rfl, h.1, h.2⟩
  · intro q hq
    rw [(comp_field_eq vals).1] at hq
    by_cases he : presentVals "occupancy_pct" (liveMonths vals) = []
    · rw [if_pos he] at hq
      cases hq
    · rw [if_neg he] at hq
      cases hq
      have h := pyRound1_char (meanQ (presentVals "occupancy_pct" (liveMonths vals)))
      exact ⟨h.2, h.1⟩
  · intro q hq
    rw [(comp_field_eq vals).2.1] at hq
    by_cases he : presentVals "adr_jpy" (liveMonths vals) = []
    · rw [if_pos he] at hq
      cases hq
    · rw [if_neg he] at hq
      cases hq
      exact ⟨_, rfl, halfEven_abs_le (meanQ (presentVals "adr_jpy" (liveMonths vals)))⟩
  · intro q hq
    rw [(comp_field_eq vals).2.2.1] at hq
    by_cases he : presentVals "revpar_jpy" (liveMonths vals) = []
    · rw [if_pos he] at hq
      cases hq
    · rw [if_neg he] at hq
      cases hq
      exact ⟨_, rfl, halfEven_abs_le (meanQ (presentVals "revpar_jpy" (liveMonths vals)))⟩

/-- A full seven-key record with occupancy 50, the given ADR and every
other metric null, in the initialisation key order the extractors use. -/
def c6Rec (adr : ℚ) : PyDict :=
  [("occupancy_pct", some 50), ("adr_jpy", some adr), ("revpar_jpy", Option.none),
   ("sales_total_mil_jpy", Option.none), ("sales_lodging_mil_jpy", Option.none),
   ("sales_fnb_mil_jpy", Option.none), ("sales_other_mil_jpy", Option.none)]

/-- Twelve seven-key records: three months live with occupancy 50 and ADR
values 1000, 1000 and 1002 (mean 3002/3), every other value null, and nine
all-null months. -/
def c6Vals : List PyDict :=
  [c6Rec 1000, c6Rec 1000, c6Rec 1002] ++ List.replicate 9 initRec7

/-- Counterexample to C6 as stated: the ADR mean is 3002/3, whose nearest
integer is 1001, yet the fixed annualizer stores 1000 (int() truncation
toward zero), so adr_avg_jpy is not the mean rounded to the nearest
integer. -/
theorem C6_counterexample :
    dget (calculate_annual_summary_fixed c6Vals) "adr_avg_jpy" = some 1000 ∧
    presentVals "adr_jpy" c6Vals = [(1000:ℚ), 1000, 1002] ∧
    |(3002/3 : ℚ) - 1001| < |(3002/3 : ℚ) - 1000| := by
  decide

/-- Witness for C6 (amended) at the concrete record set: the stored fixed
ADR average 1000 is an integer within 1 of the mean and of no larger
magnitude. -/
theorem C6_annualizer_rounding_witness :
    ∃ z : ℤ, (1000:ℚ) = (z:ℚ) ∧
      |meanQ (truthyVals "adr_jpy" (liveMonths c6Vals)) - 1000| < 1 ∧
      |(1000:ℚ)| ≤ |meanQ (truthyVals "adr_jpy" (liveMonths c6Vals))| :=
  (C6_annualizer_rounding c6Vals).2.1 1000 (by decide)

theorem selectFixed_eq (sheets : List String) (year : ℤ) :
    selectMainSheetFixed sheets year =
      sheets.find? (fun s => strContains s (eraKeywordFixed year)) := by
  unfold selectMainSheetFixed eraKeywordFixed
  split_ifs <;> rfl

/-- C4 (amended): fixed_yaml_generator's sheet selector searches only the
era-specific keyword (変動賃料等導入28ホテル for 2024 on, 変動賃料等導入 for
2019, HMJ otherwise) and returns None exactly when that keyword matches no
sheet name: it has no disclaimer fallback.  create_comprehensive_yaml's
selector runs the year-independent priority cascade 変動賃料等導入 / HMJ /
ACCOR and only it falls back to the first sheet without the 注意 marker,
returning None only when additionally every sheet name carries 注意. -/
theorem C4_sheet_selector (sheets : List String) (year : ℤ) :
    (selectMainSheetFixed sheets year = Option.none ↔
      ∀ s ∈ sheets, ¬ strContains s (eraKeywordFixed year) = true) ∧
    ((∀ kw ∈ priorityKeywords, ∀ s ∈ sheets, ¬ strContains s kw = true) →
      (selectMainSheetComp sheets = sheets.find? (fun s => ! strContains s "注意") ∧
       (selectMainSheetComp sheets = Option.none ↔
         ∀ s ∈ sheets, strContains s "注意" = true))) := by
  constructor
  · rw [selectFixed_eq]
    exact List.find?_eq_none
  · intro h
    have h1 : sheets.find? (fun s => strContains s "変動賃料等導入") = Option.none :=
      List.find?_eq_none.2 (fun s hs => h "変動賃料等導入" (by decide) s hs)
    have h2 : sheets.find? (fun s => strContains s "HMJ") = Option.none :=
      List.find?_eq_none.2 (fun s hs => h "HMJ" (by decide) s hs)
    have h3 : sheets.find? (fun s => strContains s "ACCOR") = Option.none :=
      List.find?_eq_none.2 (fun s hs => h "ACCOR" (by decide) s hs)
    have hsel : selectMainSheetComp sheets =
        sheets.find? (fun s => ! strContains s "注意") := by
      unfold selectMainSheetComp priorityKeywords
      simp [List.findSome?, h1, h2, h3]
    refine ⟨hsel, ?_⟩
    rw [hsel]
    rw [List.find?_eq_none]
    constructor
    · intro hall s hs
      have := hall s hs
      simpa using this
    · intro hall s hs
      simpa using hall s hs

/-- Witness for C4 (amended): on a workbook whose only sheet is a
disclaimer sheet, the comprehensive selector falls through the cascade to
the disclaimer scan and returns None. -/
theorem C4_sheet_selector_witness :
    selectMainSheetComp ["注意事項"] =
      (["注意事項"].find? (fun s => ! strContains s "注意")) ∧
    (selectMainSheetComp ["注意事項"] = Option.none ↔
      ∀ s ∈ ["注意事項"], strContains s "注意" = true) :=
  (C4_sheet_selector ["注意事項"] 2015).2 (by decide)

/-- Counterexample to C4 as stated: for 2024 and a single sheet named
データ, which contains neither an era keyword nor the disclaimer marker,
fixed_yaml_generator's selector returns None instead of falling back to
that first non-disclaimer sheet. -/
theorem C4_counterexample :
    selectMainSheetFixed ["データ"] 2024 = Option.none ∧
    (["データ"].find? (fun s => ! strContains s "注意")) = some "データ" := by
  decide

/-- C5 (amended): the pre-aggregated and legacy extractors always produce
records holding exactly the seven metric keys, while the per-property
extractor's records hold only the four keys occupancy_pct, adr_jpy,
revpar_jpy and sales_total_mil_jpy (the three sales-breakdown keys are
absent).  Data that was never extracted is an explicit None, never zero:
in a per-property record each metric is None exactly when zero rows
contributed to it, and in the other two extractors any metric whose label
no row of the grid carries keeps its initial explicit None. -/
theorem C5_record_keys (g : List Row) (year : ℤ) (md : MonthlyData) :
    ((extract_aggregated_data g year = Except.ok md ∨
      extract_legacy_format g year = Except.ok md) →
        ∀ p ∈ md, p.2.map Prod.fst = sevenKeys) ∧
    (extract_individual_hotels_aggregated g year = Except.ok md →
        ∀ p ∈ md, p.2.map Prod.fst = fourKeys) ∧
    (extract_individual_hotels_aggregated g year = Except.ok md →
        ∀ p ∈ md, ∃ m : IndivMonth, p.2 = finalizeIM m ∧
          (dget p.2 "occupancy_pct" = Option.none ↔ m.occN = 0) ∧
          (dget p.2 "adr_jpy" = Option.none ↔ m.adrN = 0) ∧
          (dget p.2 "revpar_jpy" = Option.none ↔ m.revparN = 0) ∧
          (dget p.2 "sales_total_mil_jpy" = Option.none ↔ m.salesN = 0)) ∧
    (∀ k, extract_aggregated_data g year = Except.ok md →
        (∀ r ∈ g, classifyKpiStrict (cellStr (r.getD 0 Option.none)) ≠ some k) →
        ∀ p ∈ md, dget p.2 k = Option.none) ∧
    (∀ k, extract_legacy_format g year = Except.ok md →
        (∀ r ∈ g, classifyKpiLegacy (cellStr (r.getD 0 Option.none)) ≠ some k) →
        ∀ p ∈ md, dget p.2 k = Option.none) := by
  refine ⟨?_, ?_, ?_, ?_, ?_⟩
  · rintro (h | h)
    · exact agg_extract_keys h
    · exact legacy_extract_keys h
  · exact indiv_extract_keys
  · intro h p hp
    rcases indiv_extract_shape h p hp with ⟨m, -, hrec⟩
    refine ⟨m, hrec, ?_, ?_, ?_, ?_⟩ <;> rw [hrec]
    exacts [(finalizeIM_none_iff m).1, (finalizeIM_none_iff m).2.1,
      (finalizeIM_none_iff m).2.2.1, (finalizeIM_none_iff m).2.2.2]
  · intro k h hk
    exact agg_unclassified_none k h hk
  · intro k h hk
    exact legacy_unclassified_none k h hk

/-- Witness for C5 (amended): concrete key lists of the month-01 records of
a pre-aggregated extraction and a per-property extraction, and the explicit
None kept by a metric (ADR) whose label no row of the grid carries. -/
theorem C5_record_keys_witness :
    (recOf (mdOf (extract_aggregated_data gridAggOcc 2024)) "01").map Prod.fst = sevenKeys ∧
    (recOf (mdOf (extract_individual_hotels_aggregated c8grid 2022)) "01").map Prod.fst =
      fourKeys ∧
    dget (recOf (mdOf (extract_aggregated_data gridAggOcc 2024)) "01") "adr_jpy" =
      Option.none :=
  ⟨(C5_record_keys gridAggOcc 2024 (mdOf (extract_aggregated_data gridAggOcc 2024))).1
      (Or.inl rfl) _ (by decide),
   (C5_record_keys c8grid 2022
      (mdOf (extract_individual_hotels_aggregated c8grid 2022))).2.1 rfl _ (by decide),
   (C5_record_keys gridAggOcc 2024 (mdOf (extract_aggregated_data gridAggOcc 2024))).2.2.2.1
      "adr_jpy" rfl (by decide) _ (by decide)⟩

/-- Counterexample to C5 as stated: a record of the per-property extractor
does not contain all seven MetricKind keys; sales_lodging_mil_jpy is
absent. -/
theorem C5_counterexample :
    mdKeysAt (extract_individual_hotels_aggregated ([] : List Row) 2019) "01" =
      ["occupancy_pct", "adr_jpy", "revpar_jpy", "sales_total_mil_jpy"] ∧
    "sales_lodging_mil_jpy" ∉
      mdKeysAt (extract_individual_hotels_aggregated ([] : List Row) 2019) "01" := by
  decide
